import Mathlib

/-!
DocuMind front-end controller (`frontend/app.js`).

A shallow embedding of the single UI controller: the module-level variables
(`totalQuestions`, `lastLatencies`, `isLoading`, `selectedFiles`) and the parts
of the page they are mirrored into become one record, every handler becomes a
function on that record, and everything a handler asks of the browser (alerts,
the confirmation prompt, requests, the download, the timer) is returned as a
list of effects.  An asynchronous handler is split at its `await`: the part
before it and the continuation after it are separate functions, so that other
handlers can run in between.

Browser primitives are modelled as follows.
* Strings are Lean strings; `trim`, `toLowerCase` and `endsWith` are written out
  below.  `toLowerCase` lowers ASCII letters only, which decides the `.pdf` test
  exactly as the full Unicode mapping does (no other character lowers to `p`,
  `d`, `f` or the dot).
* Numbers are IEEE binary64 values, held as the rationals they denote.  `+` and `/`
  give the exact result rounded to the nearest binary64 value, ties to the even
  significand, subnormals included; overflow to `Infinity` is left out (it needs
  durations beyond 1.7e308 ms).  `Math.round` is `⌊x + 1/2⌋` and is exact.
* An array is a list; because `selectedFiles` is pushed to in place and the loop of
  `uploadFiles` walks the array itself, every running upload carries the contents
  of the array it walks and a flag telling whether `selectedFiles` still is that
  array.
* Clock readings (`toLocaleTimeString`, `toLocaleString`, `Date.now`) and the
  answers of the network and of the user are arguments.
-/

namespace DocuMind

/-! ## String primitives -/

/-- Code points removed by `String.prototype.trim`: white space and line terminators. -/
def whiteSpaceCodes : List Nat :=
  [0x09, 0x0A, 0x0B, 0x0C, 0x0D, 0x20, 0xA0, 0x1680,
   0x2000, 0x2001, 0x2002, 0x2003, 0x2004, 0x2005, 0x2006, 0x2007, 0x2008, 0x2009, 0x200A,
   0x2028, 0x2029, 0x202F, 0x205F, 0x3000, 0xFEFF]

/-- Whether `trim` strips the character. -/
def isWhiteSpace (c : Char) : Bool := whiteSpaceCodes.contains c.toNat

/-- Method `s.trim()`: white space removed from both ends. -/
def trim (s : String) : String :=
  ⟨((s.data.dropWhile isWhiteSpace).reverse.dropWhile isWhiteSpace).reverse⟩

/-- Method `s.toLowerCase()`, on ASCII letters. -/
def toLowerCase (s : String) : String := ⟨s.data.map Char.toLower⟩

/-- Method `s.endsWith(suffix)`. -/
def endsWith (s suffix : String) : Bool := suffix.data.isSuffixOf s.data

/-- Property `s.length`: the number of UTF-16 code units. -/
def utf16Length (s : String) : Nat :=
  (s.data.map fun c => if c.toNat < 0x10000 then 1 else 2).sum

/-- Method `s.repeat(n)`. -/
def repeatString (s : String) : Nat → String
  | 0 => ""
  | n + 1 => s ++ repeatString s n

/-- Method `parts.join(sep)`. -/
def join : List String → String → String
  | [], _ => ""
  | [x], _ => x
  | x :: y :: rest, sep => x ++ sep ++ join (y :: rest) sep

/-- Function `Math.round` on an exact value: the nearest integer, ties towards `+∞`. -/
def mathRound (x : ℚ) : Int := Rat.floor (x + 1 / 2)

/-! ## Number primitives -/

/-- The integer nearest to `y`, a tie going to the even one. -/
def roundHalfEven (y : ℚ) : ℤ :=
  let f := Rat.floor y
  if y - f < 1 / 2 then f
  else if 1 / 2 < y - f then f + 1
  else if f % 2 = 0 then f else f + 1

/-- The binary64 value nearest to the exact value `x`, ties to even: with `2 ^ k ≤ |x| < 2 ^ (k + 1)`
the value is rounded to a multiple of `2 ^ (k - 52)` (53 significant bits), and to a multiple of
`2 ^ (-1074)` in the subnormal range. -/
def roundToDouble (x : ℚ) : ℚ :=
  if x = 0 then 0
  else
    let e : ℤ := max (Int.log 2 |x| - 52) (-1074)
    (roundHalfEven (x / (2 : ℚ) ^ e) : ℚ) * (2 : ℚ) ^ e

/-- The operator `+` on numbers. -/
def numberAdd (x y : ℚ) : ℚ := roundToDouble (x + y)

/-- The operator `/` on numbers, for a divisor other than zero. -/
def numberDiv (x y : ℚ) : ℚ := roundToDouble (x / y)

/-! ## Data model -/

/-- The `role` argument of `addMessage`: the string `"user"` or `"bot"`. -/
inductive Role where
  | user
  | bot
  deriving DecidableEq, Repr

/-- One `.message` node of the chat: its role class, `.time` text and `.bubble` text. -/
structure Message where
  role : Role
  time : String
  text : String
  deriving DecidableEq, Repr

/-- A browser `File`: its name, its size in bytes and an opaque handle on the bytes. -/
structure File where
  name : String
  size : Nat
  handle : Nat
  deriving DecidableEq, Repr

/-- A child of `#upload-list`: a file row, or the status line (`statusDiv`) of the upload with
the given number, whose class and text are kept with that upload. -/
inductive UploadRow where
  | item (name : String) (size : Nat)
  | status (upload : Nat)
  deriving DecidableEq, Repr

/-- One call of `uploadFiles`, running or finished: the contents of the array its `for...of`
walks, whether `selectedFiles` still is that array, the position of the file whose request is
awaited, the two counters, the class and text of its `statusDiv`, and whether the loop is over. -/
structure UploadTask where
  files : List File
  live : Bool
  index : Nat
  successCount : Nat
  errorCount : Nat
  statusClass : String
  statusText : String
  finished : Bool
  deriving DecidableEq, Repr

/-- What a handler asks of the browser. -/
inductive Effect where
  | alert (msg : String)
  | confirm (msg : String)
  | fetchQuery (url : String) (question : String)
  | fetchUpload (url : String) (file : File)
  | download (fileName : String) (content : String)
  | focusQuestion
  | setTimeout (ms : Nat)
  deriving DecidableEq, Repr

/-- The module-level variables and the page state the handlers read and write. -/
structure AppState where
  /-- The page origin, `window.location.origin`. -/
  origin : String
  /-- Value of the API base field, `apiUrlInput.value`. -/
  apiUrlInput : String
  /-- Variable `totalQuestions`. -/
  totalQuestions : Nat
  /-- Variable `lastLatencies`. -/
  lastLatencies : List ℚ
  /-- Variable `isLoading`. -/
  isLoading : Bool
  /-- Variable `selectedFiles`. -/
  selectedFiles : List File
  /-- The `.message` children of `#chat`, in document order. -/
  chat : List Message
  /-- Whether `#chat` holds the `.chat-empty` placeholder. -/
  chatEmpty : Bool
  /-- Flag `sendButton.disabled`. -/
  sendDisabled : Bool
  /-- Value of the question field, `questionInput.value`. -/
  questionInput : String
  /-- Text of `charCount`. -/
  charCount : String
  /-- Text of `metricTotal`. -/
  metricTotal : String
  /-- Text of `metricLatency`. -/
  metricLatency : String
  /-- Text of `metricStatus`. -/
  metricStatus : String
  /-- Whether `#upload-modal` has the class `active`. -/
  modalActive : Bool
  /-- The children of `#upload-list`. -/
  uploadList : List UploadRow
  /-- Value of the file picker, `fileInput.value`. -/
  fileInputValue : String
  /-- Flag `confirmUploadButton.disabled`. -/
  confirmDisabled : Bool
  /-- The calls of `uploadFiles` made so far, oldest first. -/
  uploads : List UploadTask
  /-- The pending callbacks of `setTimeout` in `uploadFiles`, oldest first, each with the
  `errorCount` it closed over. -/
  timers : List Nat
  deriving DecidableEq

/-- The page right after load: nothing asked, nothing staged. -/
def initialState (origin : String) : AppState where
  origin := origin
  apiUrlInput := origin
  totalQuestions := 0
  lastLatencies := []
  isLoading := false
  selectedFiles := []
  chat := []
  chatEmpty := true
  sendDisabled := false
  questionInput := ""
  charCount := "0 / 1000"
  metricTotal := "0"
  metricLatency := "—"
  metricStatus := "—"
  modalActive := false
  uploadList := []
  fileInputValue := ""
  confirmDisabled := true
  uploads := []
  timers := []

/-! ## Conversation -/

/-- Function `getApiBase`: the trimmed field without one trailing slash, or the page origin. -/
def getApiBase (s : AppState) : String :=
  let t := trim s.apiUrlInput
  let base : String := if endsWith t "/" then ⟨t.data.dropLast⟩ else t
  if base = "" then s.origin else base

/-- Function `updateCharCount`: the length of the question over the limit. -/
def updateCharCount (s : AppState) : AppState :=
  { s with charCount := toString (utf16Length s.questionInput) ++ " / 1000" }

/-- Function `addMessage(role, text)` at clock reading `time`: the placeholder goes, the node is appended. -/
def addMessage (s : AppState) (role : Role) (text time : String) : AppState :=
  { s with chat := s.chat ++ [{ role := role, time := time, text := text }], chatEmpty := false }

/-- Function `recordLatency(ms)`: push, drop the oldest entry beyond ten, add the entries up from
0 with `+`, divide by their number with `/`, show `Math.round` of the quotient. -/
def recordLatency (s : AppState) (ms : ℚ) : AppState :=
  let pushed := s.lastLatencies ++ [ms]
  let window := if pushed.length > 10 then pushed.tail else pushed
  let avg := numberDiv (window.foldl numberAdd 0) (window.length : ℚ)
  { s with lastLatencies := window, metricLatency := toString (mathRound avg) ++ "ms" }

/-- How the request to `/query` ends.  A response carries its status and what reading the body
gives: `text` for `response.text()`, `answer` for the `answer` field of `response.json()`
(`none` when the field is absent or null); either read may throw, with a message.  The other
way to end is the rejection of `fetch` itself: no connection, or the 60 s timeout. -/
inductive QueryOutcome where
  | response (status : Nat) (text : Except String String) (answer : Except String (Option String))
  | networkFailure (message : String)

/-- Property `response.ok`: the status is in the range 200-299. -/
def responseOk (status : Nat) : Bool := 200 ≤ status && status ≤ 299

/-- The guard of `sendQuestion`: `!question.trim() || isLoading`. -/
def sendGuard (s : AppState) (question : String) : Bool :=
  trim question = "" || s.isLoading

/-- First part of `sendQuestion(question)`, up to the `await` of `fetch`; `time` is the clock
reading `addMessage` takes. -/
def sendQuestionStart (s : AppState) (question time : String) : AppState × List Effect :=
  if sendGuard s question then (s, [])
  else
    let s := { s with isLoading := true, sendDisabled := true }
    let s := addMessage s Role.user (trim question) time
    let s := updateCharCount { s with questionInput := "" }
    let s := { s with totalQuestions := s.totalQuestions + 1 }
    let s := { s with metricTotal := toString s.totalQuestions }
    (s, [Effect.fetchQuery (getApiBase s ++ "/query") question])

/-- The `catch` block of `sendQuestion`. -/
def sendQuestionCatch (s : AppState) (message time : String) : AppState :=
  { addMessage s Role.bot ("❌ Connection error: " ++ message) time with metricStatus := "Error" }

/-- The `finally` block of `sendQuestion`. -/
def sendQuestionFinally (s : AppState) : AppState × List Effect :=
  ({ s with isLoading := false, sendDisabled := false }, [Effect.focusQuestion])

/-- Second part of `sendQuestion`, from the moment `fetch` settles: `elapsed` is
`performance.now() - start` and `time` the clock reading `addMessage` takes. -/
def sendQuestionSettle (s : AppState) (outcome : QueryOutcome) (elapsed : ℚ) (time : String) :
    AppState × List Effect :=
  match outcome with
  | QueryOutcome.networkFailure message => sendQuestionFinally (sendQuestionCatch s message time)
  | QueryOutcome.response status text answer =>
    let s := recordLatency s elapsed
    if !responseOk status then
      match text with
      | Except.error message => sendQuestionFinally (sendQuestionCatch s message time)
      | Except.ok detail =>
        let s := addMessage s Role.bot ("⚠️ Error " ++ toString status ++ ": " ++ detail) time
        sendQuestionFinally { s with metricStatus := "Error " ++ toString status }
    else
      match answer with
      | Except.error message => sendQuestionFinally (sendQuestionCatch s message time)
      | Except.ok field =>
        let shown := match field with
          | some a => if a = "" then "No answer returned." else a
          | none => "No answer returned."
        let s := addMessage s Role.bot shown time
        sendQuestionFinally { s with metricStatus := "Answered" }

/-- A whole `sendQuestion` call with nothing running between its two parts. -/
def sendQuestion (s : AppState) (question : String) (outcome : QueryOutcome) (elapsed : ℚ)
    (timeSent timeSettled : String) : AppState × List Effect :=
  if sendGuard s question then (s, [])
  else
    let r1 := sendQuestionStart s question timeSent
    let r2 := sendQuestionSettle r1.1 outcome elapsed timeSettled
    (r2.1, r1.2 ++ r2.2)

/-- The rule between two exported messages and under the header: fifty `=`. -/
def exportRule : String := repeatString "=" 50

/-- The text `exportChat` writes for one message node. -/
def exportMessage (m : Message) : String :=
  let role := if m.role = Role.user then "User" else "DocuMind"
  "[" ++ m.time ++ "] " ++ role ++ ":\n" ++ m.text

/-- The text `exportChat` puts into the blob; `exportedAt` is `new Date().toLocaleString()`. -/
def exportText (s : AppState) (exportedAt : String) : String :=
  let transcript := join (s.chat.map exportMessage) ("\n\n" ++ exportRule ++ "\n\n")
  let metadata := "DocuMind Enterprise - Conversation Export\nExported: " ++ exportedAt ++
    "\nTotal Questions: " ++ toString s.totalQuestions ++ "\n\n" ++ exportRule ++ "\n\n"
  metadata ++ transcript

/-- Function `exportChat`; `nowMillis` is `Date.now()`.  It changes no state. -/
def exportChat (s : AppState) (exportedAt : String) (nowMillis : Nat) : List Effect :=
  if s.chat.length = 0 then [Effect.alert "No messages to export"]
  else [Effect.download ("documind-export-" ++ toString nowMillis ++ ".txt") (exportText s exportedAt)]

/-- Function `clearChat`; `confirmed` is what `confirm` returns if it is asked. -/
def clearChat (s : AppState) (confirmed : Bool) : AppState × List Effect :=
  if !s.chat.isEmpty && !confirmed then (s, [Effect.confirm "Clear all messages?"])
  else
    ({ s with chat := [], chatEmpty := true, totalQuestions := 0, lastLatencies := [],
              metricTotal := "0", metricLatency := "—", metricStatus := "—" },
     if s.chat.isEmpty then [] else [Effect.confirm "Clear all messages?"])

/-! ## Upload dialog -/

/-- What an assignment of a fresh array to `selectedFiles` does to the uploads: none of them
walks the array `selectedFiles` now is. -/
def detachUploads (uploads : List UploadTask) : List UploadTask :=
  uploads.map fun t => { t with live := false }

/-- What `selectedFiles.push(file)` does to the uploads: those that walk the array
`selectedFiles` is see the new element. -/
def pushToUploads (uploads : List UploadTask) (file : File) : List UploadTask :=
  uploads.map fun t => if t.live then { t with files := t.files ++ [file] } else t

/-- Function `openUploadModal`. -/
def openUploadModal (s : AppState) : AppState :=
  { s with modalActive := true, selectedFiles := [], uploads := detachUploads s.uploads,
           uploadList := [], confirmDisabled := true }

/-- Function `closeUploadModal`. -/
def closeUploadModal (s : AppState) : AppState :=
  { s with modalActive := false, selectedFiles := [], uploads := detachUploads s.uploads,
           uploadList := [], fileInputValue := "", confirmDisabled := true }

/-- Function `renderFileList`: the list is emptied (status lines go too) and gets one row per
staged file; the confirm button follows emptiness. -/
def renderFileList (s : AppState) : AppState :=
  { s with uploadList := s.selectedFiles.map fun f => UploadRow.item f.name f.size,
           confirmDisabled := decide (s.selectedFiles.length = 0) }

/-- The extension test of `addFileToList`: `file.name.toLowerCase().endsWith('.pdf')`. -/
def isPdfName (name : String) : Bool := endsWith (toLowerCase name) ".pdf"

/-- Function `addFileToList(file)`. -/
def addFileToList (s : AppState) (file : File) : AppState × List Effect :=
  if !isPdfName file.name then (s, [Effect.alert "Only PDF files are supported"])
  else if s.selectedFiles.any (fun f => f.name = file.name) then
    (s, [Effect.alert "This file is already in the list"])
  else
    (renderFileList { s with selectedFiles := s.selectedFiles ++ [file],
                             uploads := pushToUploads s.uploads file }, [])

/-- Function `removeFileFromList(fileName)`. -/
def removeFileFromList (s : AppState) (fileName : String) : AppState :=
  renderFileList { s with selectedFiles := s.selectedFiles.filter fun f => f.name ≠ fileName,
                          uploads := detachUploads s.uploads }

/-- How one request to `/upload` ends: a response with its status, or a rejected `fetch`. -/
inductive UploadOutcome where
  | response (status : Nat)
  | networkFailure
  deriving DecidableEq, Repr

/-- Whether the outcome makes `uploadFiles` count a success: a response that is `ok`. -/
def UploadOutcome.succeeded : UploadOutcome → Bool
  | UploadOutcome.response status => responseOk status
  | UploadOutcome.networkFailure => false

/-- The body of the loop of `uploadFiles` after its `await`: one of the two counters goes up. -/
def uploadCount (t : UploadTask) (outcome : UploadOutcome) : UploadTask :=
  match outcome with
  | UploadOutcome.response status =>
    if responseOk status then { t with successCount := t.successCount + 1 }
    else { t with errorCount := t.errorCount + 1 }
  | UploadOutcome.networkFailure => { t with errorCount := t.errorCount + 1 }

/-- The text of the status line once the loop is over. -/
def uploadSummary (successCount errorCount : Nat) : String :=
  "✓ " ++ toString successCount ++ " uploaded" ++
    (if errorCount > 0 then ", ✕ " ++ toString errorCount ++ " failed" else "")

/-- First part of `uploadFiles`, up to the `await` of the first request.  The new upload gets
the next number, the length of `uploads`. -/
def uploadFilesStart (s : AppState) : AppState × List Effect :=
  match s.selectedFiles with
  | [] => (s, [])
  | first :: _ =>
    let task : UploadTask :=
      { files := s.selectedFiles, live := true, index := 0, successCount := 0, errorCount := 0,
        statusClass := "upload-status uploading",
        statusText := "Uploading " ++ toString s.selectedFiles.length ++ " file(s)...",
        finished := false }
    ({ s with confirmDisabled := true,
              uploadList := s.uploadList ++ [UploadRow.status s.uploads.length],
              uploads := s.uploads ++ [task] },
     [Effect.fetchUpload (getApiBase s ++ "/upload") first])

/-- The continuation of upload number `i` when its awaited request settles: count, step to the
next element of the array as it is now and request it, or, past the end, write the summary,
enable the confirm button and arm the timer. -/
def uploadFilesSettle (s : AppState) (i : Nat) (outcome : UploadOutcome) :
    AppState × List Effect :=
  match s.uploads[i]? with
  | none => (s, [])
  | some t =>
    if t.finished then (s, [])
    else
      let t := uploadCount t outcome
      let t := { t with index := t.index + 1 }
      match t.files[t.index]? with
      | some file =>
        ({ s with uploads := s.uploads.set i t },
         [Effect.fetchUpload (getApiBase s ++ "/upload") file])
      | none =>
        let t := { t with
          finished := true,
          statusClass := if t.errorCount = 0 then "upload-status success" else "upload-status error",
          statusText := uploadSummary t.successCount t.errorCount }
        ({ s with uploads := s.uploads.set i t, confirmDisabled := false,
                  timers := s.timers ++ [t.errorCount] },
         [Effect.setTimeout 2000])

/-- The requests of upload number `i` settled one after another as `net` tells, at most `fuel`
of them, with no other handler running in between; the effects are accumulated. -/
def uploadFilesLoop (net : File → UploadOutcome) (i : Nat) :
    Nat → AppState × List Effect → AppState × List Effect
  | 0, r => r
  | fuel + 1, r =>
    match r.1.uploads[i]? with
    | none => r
    | some t =>
      if t.finished then r
      else
        match t.files[t.index]? with
        | none => r
        | some file =>
          let r2 := uploadFilesSettle r.1 i (net file)
          uploadFilesLoop net i fuel (r2.1, r.2 ++ r2.2)

/-- A whole call of `uploadFiles`, up to the moment it arms its timer, with no other handler
running during the loop: `net` tells how the request for a file ends. -/
def uploadFiles (s : AppState) (net : File → UploadOutcome) : AppState × List Effect :=
  uploadFilesLoop net s.uploads.length s.selectedFiles.length (uploadFilesStart s)

/-- The callback `uploadFiles` hands to `setTimeout`, for the oldest pending timer. -/
def uploadTimer (s : AppState) : AppState :=
  match s.timers with
  | [] => s
  | errorCount :: rest =>
    let s := { s with timers := rest }
    if errorCount = 0 then closeUploadModal s else s

/-! ## Event sequences -/

/-- The events of a conversation: a send, the settling of the pending request, a clear. -/
inductive ChatEvent where
  | send (question time : String)
  | settle (outcome : QueryOutcome) (elapsed : ℚ) (time : String)
  | clear (confirmed : Bool)

/-- One conversation event.  A request settles only while one is pending, which is exactly
while `isLoading` is set. -/
def chatStep (s : AppState) : ChatEvent → AppState
  | ChatEvent.send question time => (sendQuestionStart s question time).1
  | ChatEvent.settle outcome elapsed time =>
    if s.isLoading then (sendQuestionSettle s outcome elapsed time).1 else s
  | ChatEvent.clear confirmed => (clearChat s confirmed).1

/-- The events of the upload dialog: the handlers, the settling of one request of upload number
`upload`, and the firing of the oldest timer.  An upload is either started and settled request by
request, with other events in between, or run as a whole. -/
inductive UploadEvent where
  | openDialog
  | closeDialog
  | addFile (file : File)
  | removeFile (fileName : String)
  | uploadAll (net : File → UploadOutcome)
  | uploadStart
  | uploadSettle (upload : Nat) (outcome : UploadOutcome)
  | timer

/-- One event of the upload dialog. -/
def uploadStep (s : AppState) : UploadEvent → AppState
  | UploadEvent.openDialog => openUploadModal s
  | UploadEvent.closeDialog => closeUploadModal s
  | UploadEvent.addFile file => (addFileToList s file).1
  | UploadEvent.removeFile fileName => removeFileFromList s fileName
  | UploadEvent.uploadAll net => (uploadFiles s net).1
  | UploadEvent.uploadStart => (uploadFilesStart s).1
  | UploadEvent.uploadSettle upload outcome => (uploadFilesSettle s upload outcome).1
  | UploadEvent.timer => uploadTimer s


/-! ## Properties named by the specification -/

/-- The specification's "named with a `.pdf` suffix (case-insensitive)", read off the name
itself: its last four characters are a dot and the letters p, d, f, each in either case. -/
def endsInPdfIgnoringCase (name : String) : Bool :=
  match name.data.reverse with
  | c :: b :: a :: dot :: _ =>
    dot == '.' && (a == 'p' || a == 'P') && (b == 'd' || b == 'D') && (c == 'f' || c == 'F')
  | _ => false

/-- The specification's serialisation of one message: `[time] Role:`, a line break, the text. -/
def transcriptEntry (m : Message) : String :=
  "[" ++ m.time ++ "] " ++ (match m.role with | Role.user => "User" | Role.bot => "DocuMind") ++
    ":\n" ++ m.text

/-- The specification's export: a metadata header with the export time and the total question
count, then the messages in display order, consecutive ones separated by a rule of fifty `=`. -/
def transcriptExport (exportedAt : String) (totalQuestions : Nat) (messages : List Message) :
    String :=
  "DocuMind Enterprise - Conversation Export\nExported: " ++ exportedAt ++
    "\nTotal Questions: " ++ toString totalQuestions ++
    "\n\n==================================================\n\n" ++
    String.intercalate "\n\n==================================================\n\n"
      (messages.map transcriptEntry)

/-- The upload that has counted `a` successes and `b` failures and awaits the request for the
file at position `index` of `files`. -/
def runningUpload (files : List File) (live : Bool) (index a b : Nat) (cls txt : String) :
    UploadTask :=
  { files := files, live := live, index := index, successCount := a, errorCount := b,
    statusClass := cls, statusText := txt, finished := false }

/-- The upload that went through `files` with `a` successes and `b` failures. -/
def finishedUpload (files : List File) (live : Bool) (a b : Nat) : UploadTask :=
  { files := files, live := live, index := files.length, successCount := a, errorCount := b,
    statusClass := if b = 0 then "upload-status success" else "upload-status error",
    statusText := uploadSummary a b, finished := true }

/-- The number the literal `0.7` denotes: the binary64 value nearest to 7/10. -/
def double07 : ℚ := 6305039478318694 / 2 ^ 53

/-- The number the literal `0.3` denotes: the binary64 value nearest to 3/10. -/
def double03 : ℚ := 5404319552844595 / 2 ^ 54

/-! ## Number primitives, facts -/

theorem mathRound_eq_floor (x : ℚ) : mathRound x = ⌊x + 1 / 2⌋ := rfl

theorem roundHalfEven_intCast (n : ℤ) : roundHalfEven (n : ℚ) = n := by
  have hf : Rat.floor (n : ℚ) = n := by
    show ⌊(n : ℚ)⌋ = n
    exact Int.floor_intCast n
  have hlt : (n : ℚ) - ((n : ℤ) : ℚ) < 1 / 2 := by norm_num
  simp only [roundHalfEven, hf, hlt, if_true]

theorem roundHalfEven_tie_odd (f : ℤ) (hodd : f % 2 = 1) :
    roundHalfEven ((f : ℚ) + 1 / 2) = f + 1 := by
  have hf : Rat.floor ((f : ℚ) + 1 / 2) = f := by
    show ⌊(f : ℚ) + 1 / 2⌋ = f
    rw [Int.floor_eq_iff]
    constructor <;> norm_num
  have hne : ¬ f % 2 = 0 := by omega
  have h1 : ¬ ((f : ℚ) + 1 / 2 - (f : ℚ) < 1 / 2) := by norm_num
  have h2 : ¬ ((1 : ℚ) / 2 < (f : ℚ) + 1 / 2 - (f : ℚ)) := by norm_num
  simp only [roundHalfEven, hf, h1, h2, hne, if_false]

theorem log_two_eq (x : ℚ) (k : ℤ) (hlo : (2 : ℚ) ^ k ≤ x) (hhi : x < (2 : ℚ) ^ (k + 1)) :
    Int.log 2 x = k := by
  have hpos : 0 < x := lt_of_lt_of_le (by positivity) hlo
  have h1 : k ≤ Int.log 2 x :=
    (Int.zpow_le_iff_le_log (by norm_num) hpos).mp (by exact_mod_cast hlo)
  have h2 : Int.log 2 x < k + 1 :=
    (Int.lt_zpow_iff_log_lt (by norm_num) hpos).mp (by exact_mod_cast hhi)
  omega

theorem roundToDouble_eq (x : ℚ) (e n : ℤ) (he : -1074 ≤ e)
    (hlo : (2 : ℚ) ^ (e + 52) ≤ |x|) (hhi : |x| < (2 : ℚ) ^ (e + 52 + 1))
    (hr : roundHalfEven (x / (2 : ℚ) ^ e) = n) :
    roundToDouble x = (n : ℚ) * (2 : ℚ) ^ e := by
  have hx : x ≠ 0 := by
    intro h
    rw [h, abs_zero] at hlo
    exact absurd hlo (not_le.mpr (by positivity))
  have hlog := log_two_eq |x| (e + 52) hlo hhi
  have hmax : max (e + 52 - 52) (-1074) = e := by
    rw [add_sub_cancel_right]; exact max_eq_left he
  simp only [roundToDouble, hx, if_false, hlog, hmax, hr]

theorem roundToDouble_exact (x : ℚ) (e n : ℤ) (he : -1074 ≤ e)
    (hlo : (2 : ℚ) ^ (e + 52) ≤ |x|) (hhi : |x| < (2 : ℚ) ^ (e + 52 + 1))
    (hx : x / (2 : ℚ) ^ e = (n : ℚ)) : roundToDouble x = x := by
  rw [roundToDouble_eq x e n he hlo hhi (by rw [hx]; exact roundHalfEven_intCast n), ← hx]
  have h2 : ((2 : ℚ) ^ e) ≠ 0 := by positivity
  field_simp

theorem numberAdd_one_halves :
    ([1 / 2, 1 / 2, 1 / 2, 1 / 2, 1 / 2, 1 / 2, 1 / 2, 1 / 2] : List ℚ).foldl numberAdd 1 = 5 := by
  have h1 : numberAdd 1 (1 / 2) = 3 / 2 := by
    rw [numberAdd, show (1 : ℚ) + 1 / 2 = 3 / 2 by norm_num]
    exact roundToDouble_exact (3 / 2) (-52) (3 * 2 ^ 51) (by norm_num)
      (by norm_num [abs_of_pos]) (by norm_num [abs_of_pos]) (by norm_num)
  have h2 : numberAdd (3 / 2) (1 / 2) = 2 := by
    rw [numberAdd, show (3 : ℚ) / 2 + 1 / 2 = 2 by norm_num]
    exact roundToDouble_exact 2 (-51) (2 ^ 52) (by norm_num)
      (by norm_num [abs_of_pos]) (by norm_num [abs_of_pos]) (by norm_num)
  have h3 : numberAdd 2 (1 / 2) = 5 / 2 := by
    rw [numberAdd, show (2 : ℚ) + 1 / 2 = 5 / 2 by norm_num]
    exact roundToDouble_exact (5 / 2) (-51) (5 * 2 ^ 50) (by norm_num)
      (by norm_num [abs_of_pos]) (by norm_num [abs_of_pos]) (by norm_num)
  have h4 : numberAdd (5 / 2) (1 / 2) = 3 := by
    rw [numberAdd, show (5 : ℚ) / 2 + 1 / 2 = 3 by norm_num]
    exact roundToDouble_exact 3 (-51) (3 * 2 ^ 51) (by norm_num)
      (by norm_num [abs_of_pos]) (by norm_num [abs_of_pos]) (by norm_num)
  have h5 : numberAdd 3 (1 / 2) = 7 / 2 := by
    rw [numberAdd, show (3 : ℚ) + 1 / 2 = 7 / 2 by norm_num]
    exact roundToDouble_exact (7 / 2) (-51) (7 * 2 ^ 50) (by norm_num)
      (by norm_num [abs_of_pos]) (by norm_num [abs_of_pos]) (by norm_num)
  have h6 : numberAdd (7 / 2) (1 / 2) = 4 := by
    rw [numberAdd, show (7 : ℚ) / 2 + 1 / 2 = 4 by norm_num]
    exact roundToDouble_exact 4 (-50) (2 ^ 52) (by norm_num)
      (by norm_num [abs_of_pos]) (by norm_num [abs_of_pos]) (by norm_num)
  have h7 : numberAdd 4 (1 / 2) = 9 / 2 := by
    rw [numberAdd, show (4 : ℚ) + 1 / 2 = 9 / 2 by norm_num]
    exact roundToDouble_exact (9 / 2) (-50) (9 * 2 ^ 49) (by norm_num)
      (by norm_num [abs_of_pos]) (by norm_num [abs_of_pos]) (by norm_num)
  have h8 : numberAdd (9 / 2) (1 / 2) = 5 := by
    rw [numberAdd, show (9 : ℚ) / 2 + 1 / 2 = 5 by norm_num]
    exact roundToDouble_exact 5 (-50) (5 * 2 ^ 50) (by norm_num)
      (by norm_num [abs_of_pos]) (by norm_num [abs_of_pos]) (by norm_num)
  simp only [List.foldl_cons, List.foldl_nil, h1, h2, h3, h4, h5, h6, h7, h8]

theorem numberDiv_five_ten : numberDiv 5 10 = 1 / 2 := by
  rw [numberDiv, show (5 : ℚ) / 10 = 1 / 2 by norm_num]
  exact roundToDouble_exact (1 / 2) (-53) (2 ^ 52) (by norm_num)
    (by norm_num [abs_of_pos]) (by norm_num [abs_of_pos]) (by norm_num)

theorem numberAdd_zero_half : numberAdd 0 (1 / 2) = 1 / 2 := by
  rw [numberAdd, zero_add]
  exact roundToDouble_exact (1 / 2) (-53) (2 ^ 52) (by norm_num)
    (by norm_num [abs_of_pos]) (by norm_num [abs_of_pos]) (by norm_num)

theorem numberAdd_half_half : numberAdd (1 / 2) (1 / 2) = 1 := by
  rw [numberAdd, show (1 : ℚ) / 2 + 1 / 2 = 1 by norm_num]
  exact roundToDouble_exact 1 (-52) (2 ^ 52) (by norm_num)
    (by norm_num [abs_of_pos]) (by norm_num [abs_of_pos]) (by norm_num)

theorem numberAdd_zero_double07 : numberAdd 0 double07 = double07 := by
  rw [numberAdd, zero_add]
  exact roundToDouble_exact double07 (-53) 6305039478318694 (by norm_num)
    (by norm_num [double07, abs_of_pos]) (by norm_num [double07, abs_of_pos])
    (by norm_num [double07])

theorem numberAdd_double07_double03 : numberAdd double07 double03 = 1 := by
  have h := roundToDouble_eq (double07 + double03) (-53) (2 ^ 53) (by norm_num)
    (by norm_num [double07, double03, abs_of_pos])
    (by norm_num [double07, double03, abs_of_pos])
    (by
      have hx : (double07 + double03) / (2 : ℚ) ^ (-53 : ℤ) =
          ((2 ^ 53 - 1 : ℤ) : ℚ) + 1 / 2 := by
        norm_num [double07, double03]
      rw [hx, roundHalfEven_tie_odd _ (by norm_num)]
      norm_num)
  rw [numberAdd, h]
  norm_num

/-! ## The latency window -/

theorem recordLatency_window (s : AppState) (ms : ℚ) (hcap : s.lastLatencies.length ≤ 10) :
    (recordLatency s ms).lastLatencies =
      (s.lastLatencies ++ [ms]).drop ((s.lastLatencies ++ [ms]).length - 10) := by
  simp only [recordLatency]
  split
  · rename_i h
    have h1 : (s.lastLatencies ++ [ms]).length - 10 = 1 := by
      simp only [List.length_append, List.length_singleton] at h ⊢
      omega
    rw [h1, List.drop_one]
  · rename_i h
    have h0 : (s.lastLatencies ++ [ms]).length - 10 = 0 := by omega
    rw [h0, List.drop_zero]

theorem recordLatency_metric (s : AppState) (ms : ℚ) :
    (recordLatency s ms).metricLatency =
      toString (mathRound (numberDiv ((recordLatency s ms).lastLatencies.foldl numberAdd 0)
        ((recordLatency s ms).lastLatencies.length : ℚ))) ++ "ms" := rfl

theorem drop_drop_append_last {α : Type} (k : Nat) (a b : List α) :
    (a.drop (a.length - k) ++ b).drop ((a.drop (a.length - k) ++ b).length - k) =
      (a ++ b).drop ((a ++ b).length - k) := by
  by_cases h : a.length ≤ k
  · have h0 : a.length - k = 0 := by omega
    rw [h0, List.drop_zero]
  · have hlen : (a.drop (a.length - k)).length = k := by
      rw [List.length_drop]; omega
    have e1 : (a.drop (a.length - k) ++ b).length - k = b.length := by
      rw [List.length_append, hlen]; omega
    have e2 : (a ++ b).length - k = (a.length - k) + b.length := by
      rw [List.length_append]; omega
    rw [e1, e2, ← List.drop_drop,
      List.drop_append_of_le_length (show a.length - k ≤ a.length by omega)]

theorem foldl_recordLatency_window (ds : List ℚ) (s : AppState)
    (hcap : s.lastLatencies.length ≤ 10) :
    (ds.foldl recordLatency s).lastLatencies =
      (s.lastLatencies ++ ds).drop ((s.lastLatencies ++ ds).length - 10) := by
  induction ds generalizing s with
  | nil =>
    have h0 : (s.lastLatencies ++ []).length - 10 = 0 := by
      rw [List.append_nil]; omega
    rw [List.foldl_nil, h0, List.drop_zero, List.append_nil]
  | cons d ds ih =>
    have hw := recordLatency_window s d hcap
    have hcap2 : (recordLatency s d).lastLatencies.length ≤ 10 := by
      rw [hw, List.length_drop]; simp only [List.length_append, List.length_singleton]; omega
    rw [List.foldl_cons, ih _ hcap2, hw, drop_drop_append_last, List.append_assoc,
      List.singleton_append]

theorem foldl_recordLatency_metric (ds : List ℚ) (s : AppState) (hne : ds ≠ []) :
    (ds.foldl recordLatency s).metricLatency =
      toString (mathRound (numberDiv ((ds.foldl recordLatency s).lastLatencies.foldl numberAdd 0)
        ((ds.foldl recordLatency s).lastLatencies.length : ℚ))) ++ "ms" := by
  obtain ⟨init, d, rfl⟩ : ∃ init d, ds = init ++ [d] :=
    ⟨ds.dropLast, ds.getLast hne, (List.dropLast_append_getLast hne).symm⟩
  rw [List.foldl_concat]
  exact recordLatency_metric _ d

/-- C1, as the code has it. Starting from an empty latency window, after more than ten calls of
`recordLatency` the window holds exactly the last ten durations in the order they were recorded,
and the latency metric shows `Math.round` of the mean as the code computes it in binary64
arithmetic: the ten values added up from 0 in window order, each sum rounded to the nearest
binary64 value, and the total divided by 10 with the quotient rounded likewise. -/
theorem recordLatency_keeps_last_ten (s : AppState) (ds : List ℚ)
    (hempty : s.lastLatencies = []) (hN : 10 < ds.length) :
    (ds.foldl recordLatency s).lastLatencies = ds.drop (ds.length - 10) ∧
    (ds.drop (ds.length - 10)).length = 10 ∧
    (ds.foldl recordLatency s).metricLatency =
      toString (mathRound (numberDiv ((ds.drop (ds.length - 10)).foldl numberAdd 0) 10))
        ++ "ms" := by
  have hw : (ds.foldl recordLatency s).lastLatencies = ds.drop (ds.length - 10) := by
    rw [foldl_recordLatency_window ds s (by rw [hempty]; exact Nat.zero_le _), hempty,
      List.nil_append]
  have hlen : (ds.drop (ds.length - 10)).length = 10 := by
    rw [List.length_drop]; omega
  refine ⟨hw, hlen, ?_⟩
  have hne : ds ≠ [] := by
    intro h; rw [h] at hN; exact absurd hN (by decide)
  rw [foldl_recordLatency_metric ds s hne, hw, hlen]
  norm_num

/-- Witness for C1 as amended: twelve recordings of half a millisecond on the freshly loaded page
leave ten of them in the window; their sum is 5, the quotient 0.5 and the metric `1ms`. -/
theorem recordLatency_keeps_last_ten_witness :
    (initialState "").lastLatencies = [] ∧
    10 < ([1 / 2, 1 / 2, 1 / 2, 1 / 2, 1 / 2, 1 / 2, 1 / 2, 1 / 2, 1 / 2, 1 / 2, 1 / 2, 1 / 2]
      : List ℚ).length ∧
    (([1 / 2, 1 / 2, 1 / 2, 1 / 2, 1 / 2, 1 / 2, 1 / 2, 1 / 2, 1 / 2, 1 / 2, 1 / 2, 1 / 2]
      : List ℚ).foldl recordLatency (initialState "")).lastLatencies =
      [1 / 2, 1 / 2, 1 / 2, 1 / 2, 1 / 2, 1 / 2, 1 / 2, 1 / 2, 1 / 2, 1 / 2] ∧
    (([1 / 2, 1 / 2, 1 / 2, 1 / 2, 1 / 2, 1 / 2, 1 / 2, 1 / 2, 1 / 2, 1 / 2, 1 / 2, 1 / 2]
      : List ℚ).foldl recordLatency (initialState "")).metricLatency = "1ms" := by
  have h := recordLatency_keeps_last_ten (initialState "")
    [1 / 2, 1 / 2, 1 / 2, 1 / 2, 1 / 2, 1 / 2, 1 / 2, 1 / 2, 1 / 2, 1 / 2, 1 / 2, 1 / 2]
    rfl (by decide)
  have hdrop : List.drop (([1 / 2, 1 / 2, 1 / 2, 1 / 2, 1 / 2, 1 / 2, 1 / 2, 1 / 2, 1 / 2, 1 / 2,
      1 / 2, 1 / 2] : List ℚ).length - 10)
      ([1 / 2, 1 / 2, 1 / 2, 1 / 2, 1 / 2, 1 / 2, 1 / 2, 1 / 2, 1 / 2, 1 / 2, 1 / 2, 1 / 2]
        : List ℚ) =
      [1 / 2, 1 / 2, 1 / 2, 1 / 2, 1 / 2, 1 / 2, 1 / 2, 1 / 2, 1 / 2, 1 / 2] := rfl
  have hsum : ([1 / 2, 1 / 2, 1 / 2, 1 / 2, 1 / 2, 1 / 2, 1 / 2, 1 / 2, 1 / 2, 1 / 2]
      : List ℚ).foldl numberAdd 0 = 5 := by
    rw [List.foldl_cons, List.foldl_cons, numberAdd_zero_half, numberAdd_half_half,
      numberAdd_one_halves]
  have hround : mathRound (1 / 2) = 1 := by
    rw [mathRound_eq_floor, Int.floor_eq_iff]
    norm_num
  refine ⟨rfl, by decide, h.1.trans hdrop, ?_⟩
  rw [h.2.2, hdrop, hsum, numberDiv_five_ten, hround]
  decide

/-- C1, counterexample. Eleven recordings on the freshly loaded page: 0.5, then the numbers the
literals 0.7 and 0.3 denote, then 0.5 eight times. The window holds the last ten. Their sum in
binary64 arithmetic is 5 (0.7 + 0.3 rounds up to 1), the quotient is 0.5, and the metric shows
`1ms`; the arithmetic mean of the ten values is below one half, so rounded to the nearest
millisecond it is 0. -/
theorem recordLatency_shows_rounded_double_mean :
    10 < ([1 / 2, double07, double03, 1 / 2, 1 / 2, 1 / 2, 1 / 2, 1 / 2, 1 / 2, 1 / 2, 1 / 2]
      : List ℚ).length ∧
    (([1 / 2, double07, double03, 1 / 2, 1 / 2, 1 / 2, 1 / 2, 1 / 2, 1 / 2, 1 / 2, 1 / 2]
      : List ℚ).foldl recordLatency (initialState "")).lastLatencies =
      [double07, double03, 1 / 2, 1 / 2, 1 / 2, 1 / 2, 1 / 2, 1 / 2, 1 / 2, 1 / 2] ∧
    (([1 / 2, double07, double03, 1 / 2, 1 / 2, 1 / 2, 1 / 2, 1 / 2, 1 / 2, 1 / 2, 1 / 2]
      : List ℚ).foldl recordLatency (initialState "")).metricLatency = "1ms" ∧
    ([double07, double03, 1 / 2, 1 / 2, 1 / 2, 1 / 2, 1 / 2, 1 / 2, 1 / 2, 1 / 2]
      : List ℚ).sum / 10 < 1 / 2 ∧
    toString (mathRound (([double07, double03, 1 / 2, 1 / 2, 1 / 2, 1 / 2, 1 / 2, 1 / 2, 1 / 2,
      1 / 2] : List ℚ).sum / 10)) ++ "ms" = "0ms" := by
  have hw := foldl_recordLatency_window
    [1 / 2, double07, double03, 1 / 2, 1 / 2, 1 / 2, 1 / 2, 1 / 2, 1 / 2, 1 / 2, 1 / 2]
    (initialState "") (Nat.zero_le _)
  have hdrop : List.drop (((initialState "").lastLatencies ++
      ([1 / 2, double07, double03, 1 / 2, 1 / 2, 1 / 2, 1 / 2, 1 / 2, 1 / 2, 1 / 2, 1 / 2]
        : List ℚ)).length - 10)
      ((initialState "").lastLatencies ++
        [1 / 2, double07, double03, 1 / 2, 1 / 2, 1 / 2, 1 / 2, 1 / 2, 1 / 2, 1 / 2, 1 / 2]) =
      [double07, double03, 1 / 2, 1 / 2, 1 / 2, 1 / 2, 1 / 2, 1 / 2, 1 / 2, 1 / 2] := rfl
  rw [hdrop] at hw
  have hsum : ([double07, double03, 1 / 2, 1 / 2, 1 / 2, 1 / 2, 1 / 2, 1 / 2, 1 / 2, 1 / 2]
      : List ℚ).foldl numberAdd 0 = 5 := by
    rw [List.foldl_cons, List.foldl_cons, numberAdd_zero_double07, numberAdd_double07_double03,
      numberAdd_one_halves]
  have hround : mathRound (1 / 2) = 1 := by
    rw [mathRound_eq_floor, Int.floor_eq_iff]
    norm_num
  have hexact : mathRound (([double07, double03, 1 / 2, 1 / 2, 1 / 2, 1 / 2, 1 / 2, 1 / 2,
      1 / 2, 1 / 2] : List ℚ).sum / 10) = 0 := by
    rw [mathRound_eq_floor, Int.floor_eq_iff]
    norm_num [double07, double03]
  refine ⟨by decide, hw, ?_, by norm_num [double07, double03], ?_⟩
  · rw [foldl_recordLatency_metric _ _ (by decide), hw, hsum]
    have hlen : (([double07, double03, 1 / 2, 1 / 2, 1 / 2, 1 / 2, 1 / 2, 1 / 2, 1 / 2, 1 / 2]
        : List ℚ).length : ℚ) = 10 := by norm_num
    rw [hlen, numberDiv_five_ten, hround]
    decide
  · rw [hexact]
    decide

/-! ## Sending a question -/

theorem trim_eq_empty_iff (q : String) :
    trim q = "" ↔ ∀ c ∈ q.data, isWhiteSpace c = true := by
  have hstr : trim q = "" ↔
      ((q.data.dropWhile isWhiteSpace).reverse.dropWhile isWhiteSpace).reverse = [] := by
    constructor
    · intro h
      exact congrArg String.data h
    · intro h
      simp only [trim, h]
  rw [hstr, List.reverse_eq_nil_iff, List.dropWhile_eq_nil_iff]
  constructor
  · intro h
    have hnil : q.data.dropWhile isWhiteSpace = [] := by
      by_contra hne
      have hfalse := List.head_dropWhile_not isWhiteSpace q.data hne
      have htrue := h _ (List.mem_reverse.mpr (List.head_mem hne))
      rw [hfalse] at htrue
      exact Bool.noConfusion htrue
    exact List.dropWhile_eq_nil_iff.mp hnil
  · intro h
    rw [List.dropWhile_eq_nil_iff.mpr h]
    intro x hx
    simp at hx

theorem sendGuard_eq_true_iff (s : AppState) (q : String) :
    sendGuard s q = true ↔ (∀ c ∈ q.data, isWhiteSpace c = true) ∨ s.isLoading = true := by
  simp only [sendGuard, Bool.or_eq_true, decide_eq_true_eq, trim_eq_empty_iff]

theorem sendQuestionStart_of_guard (s : AppState) (q time : String) (h : sendGuard s q = true) :
    sendQuestionStart s q time = (s, []) := by
  simp only [sendQuestionStart, h, if_true]

theorem sendQuestionStart_of_pass (s : AppState) (q time : String) (h : sendGuard s q = false) :
    (sendQuestionStart s q time).1.isLoading = true ∧
    (sendQuestionStart s q time).1.totalQuestions = s.totalQuestions + 1 ∧
    (sendQuestionStart s q time).1.lastLatencies = s.lastLatencies ∧
    (sendQuestionStart s q time).1.chat = s.chat ++ [{ role := Role.user, time := time, text := trim q }] ∧
    (sendQuestionStart s q time).2 = [Effect.fetchQuery (getApiBase s ++ "/query") q] := by
  simp [sendQuestionStart, h, addMessage, updateCharCount, getApiBase]


theorem sendQuestionSettle_response_window (s : AppState) (status : Nat)
    (text : Except String String) (answer : Except String (Option String)) (elapsed : ℚ)
    (time : String) :
    (sendQuestionSettle s (QueryOutcome.response status text answer) elapsed time).1.lastLatencies =
      (recordLatency s elapsed).lastLatencies := by
  simp only [sendQuestionSettle]
  split
  · split <;> rfl
  · split <;> rfl

theorem sendQuestionSettle_failure_window (s : AppState) (message : String) (elapsed : ℚ)
    (time : String) :
    (sendQuestionSettle s (QueryOutcome.networkFailure message) elapsed time).1.lastLatencies =
      s.lastLatencies := rfl

theorem sendQuestionSettle_isLoading (s : AppState) (outcome : QueryOutcome) (elapsed : ℚ)
    (time : String) :
    (sendQuestionSettle s outcome elapsed time).1.isLoading = false := by
  cases outcome with
  | networkFailure message => rfl
  | response status text answer =>
    simp only [sendQuestionSettle]
    split
    · split <;> rfl
    · split <;> rfl

/-- C2, as the code has it. A `sendQuestion` call that passes its guard records the elapsed time
once when `fetch` delivers a response, whatever its status (2xx or not): the window afterwards is
the window before with one `recordLatency` applied. When `fetch` itself fails (network failure or
timeout, raised as an exception) nothing is recorded and the window is as before. In both cases
the in-flight flag is cleared at the end. -/
theorem sendQuestion_records_latency_of_response (s : AppState) (question : String)
    (outcome : QueryOutcome) (elapsed : ℚ) (timeSent timeSettled : String)
    (hguard : sendGuard s question = false) :
    (∀ status text answer, outcome = QueryOutcome.response status text answer →
      (sendQuestion s question outcome elapsed timeSent timeSettled).1.lastLatencies =
        (recordLatency s elapsed).lastLatencies) ∧
    (∀ message, outcome = QueryOutcome.networkFailure message →
      (sendQuestion s question outcome elapsed timeSent timeSettled).1.lastLatencies =
        s.lastLatencies) ∧
    (sendQuestion s question outcome elapsed timeSent timeSettled).1.isLoading = false := by
  have hstart := (sendQuestionStart_of_pass s question timeSent hguard).2.2.1
  have hrun : (sendQuestion s question outcome elapsed timeSent timeSettled).1 =
      (sendQuestionSettle (sendQuestionStart s question timeSent).1 outcome elapsed
        timeSettled).1 := by
    simp only [sendQuestion, hguard]
    rfl
  refine ⟨?_, ?_, ?_⟩
  · intro status text answer ho
    rw [hrun, ho, sendQuestionSettle_response_window]
    simp only [recordLatency, hstart]
  · intro message ho
    rw [hrun, ho, sendQuestionSettle_failure_window, hstart]
  · rw [hrun, sendQuestionSettle_isLoading]

/-- Witness for C2 as amended: a question answered with status 500 after 5 ms on the freshly
loaded page leaves the window `[5]`. -/
theorem sendQuestion_records_latency_of_response_witness :
    sendGuard (initialState "http://localhost") "hi" = false ∧
    (sendQuestion (initialState "http://localhost") "hi"
      (QueryOutcome.response 500 (Except.ok "boom") (Except.error "not JSON")) 5
      "10:00 AM" "10:01 AM").1.lastLatencies = [5] :=
  ⟨by decide,
    ((sendQuestion_records_latency_of_response (initialState "http://localhost") "hi"
      (QueryOutcome.response 500 (Except.ok "boom") (Except.error "not JSON")) 5
      "10:00 AM" "10:01 AM" (by decide)).1 500 (Except.ok "boom") (Except.error "not JSON")
      rfl).trans (by decide)⟩

/-- C2, counterexample. On the freshly loaded page the question `hi` passes the guard; when its
request fails at the network level after 5 ms, the call completes with an empty latency window:
no recording was made, whereas one recording would have left `[5]`. -/
theorem sendQuestion_network_failure_records_nothing :
    sendGuard (initialState "http://localhost") "hi" = false ∧
    (sendQuestion (initialState "http://localhost") "hi"
      (QueryOutcome.networkFailure "Failed to fetch") 5 "10:00 AM" "10:01 AM").1.lastLatencies
        = [] ∧
    (recordLatency (initialState "http://localhost") 5).lastLatencies = [5] ∧
    (sendQuestion (initialState "http://localhost") "hi"
      (QueryOutcome.networkFailure "Failed to fetch") 5 "10:00 AM" "10:01 AM").1.lastLatencies
        ≠ (recordLatency (initialState "http://localhost") 5).lastLatencies := by
  refine ⟨by decide, by decide, by decide, by decide⟩

/-- C3. `sendQuestion(text)` does nothing when `text` is empty or consists of white space only,
or when a request is in flight: the state (transcript, question counter, latency window,
in-flight flag and all the rest) is returned as it was and no request is issued. In particular,
after a send that passes the guard, a second send before the first has settled does nothing, so
the counter has gone up by one, not two. -/
theorem sendQuestion_guard_is_noop :
    (∀ (s : AppState) (question time : String),
      ((∀ c ∈ question.data, isWhiteSpace c = true) ∨ s.isLoading = true) →
        sendQuestionStart s question time = (s, []) ∧
        ∀ outcome elapsed timeSettled,
          sendQuestion s question outcome elapsed time timeSettled = (s, [])) ∧
    (∀ (s : AppState) (first second timeFirst timeSecond : String),
      sendGuard s first = false →
        sendQuestionStart (sendQuestionStart s first timeFirst).1 second timeSecond =
          ((sendQuestionStart s first timeFirst).1, []) ∧
        (sendQuestionStart (sendQuestionStart s first timeFirst).1 second
          timeSecond).1.totalQuestions = s.totalQuestions + 1) := by
  constructor
  · intro s question time h
    have hg := (sendGuard_eq_true_iff s question).mpr h
    refine ⟨sendQuestionStart_of_guard s question time hg, ?_⟩
    intro outcome elapsed timeSettled
    simp only [sendQuestion, hg, if_true]
  · intro s first second timeFirst timeSecond hpass
    have h1 := sendQuestionStart_of_pass s first timeFirst hpass
    have hg : sendGuard (sendQuestionStart s first timeFirst).1 second = true :=
      (sendGuard_eq_true_iff _ _).mpr (Or.inr h1.1)
    have hnoop := sendQuestionStart_of_guard _ second timeSecond hg
    refine ⟨hnoop, ?_⟩
    rw [hnoop]
    exact h1.2.1

/-- Witness for C3: a question of blanks and a line break on the freshly loaded page, and the
question `again` sent while `hi` is still in flight. -/
theorem sendQuestion_guard_is_noop_witness :
    (∀ c ∈ " \t\n ".data, isWhiteSpace c = true) ∧
    sendQuestionStart (initialState "http://localhost") " \t\n " "10:00 AM" =
      (initialState "http://localhost", []) ∧
    sendGuard (initialState "http://localhost") "hi" = false ∧
    (sendQuestionStart (sendQuestionStart (initialState "http://localhost") "hi" "10:00 AM").1
      "again" "10:01 AM").1.totalQuestions = 1 :=
  ⟨by decide,
    (sendQuestion_guard_is_noop.1 (initialState "http://localhost") " \t\n " "10:00 AM"
      (Or.inl (by decide))).1,
    by decide,
    (sendQuestion_guard_is_noop.2 (initialState "http://localhost") "hi" "again" "10:00 AM"
      "10:01 AM" (by decide)).2⟩


/-! ## The staging set -/

theorem toLower_of_not_upper (c : Char) (h : ¬ (65 ≤ c.toNat ∧ c.toNat ≤ 90)) :
    c.toLower = c := by
  simp only [Char.toLower, ge_iff_le, h, if_false]

theorem toLower_eq_iff_of_lower (c t u : Char)
    (hupper : ∀ n, 65 ≤ n → n ≤ 90 → ((Char.ofNat n).toLower = t ↔ Char.ofNat n = u))
    (ht : ¬ (65 ≤ t.toNat ∧ t.toNat ≤ 90)) (hu : 65 ≤ u.toNat ∧ u.toNat ≤ 90) :
    c.toLower = t ↔ c = t ∨ c = u := by
  by_cases hc : 65 ≤ c.toNat ∧ c.toNat ≤ 90
  · have h := hupper c.toNat hc.1 hc.2
    rw [Char.ofNat_toNat] at h
    rw [h]
    constructor
    · exact Or.inr
    · rintro (h1 | h1)
      · exact absurd (h1 ▸ hc) ht
      · exact h1
  · rw [toLower_of_not_upper c hc]
    constructor
    · exact Or.inl
    · rintro (h1 | h1)
      · exact h1
      · exact absurd (h1 ▸ hu) hc

theorem toLower_eq_p (c : Char) : c.toLower = 'p' ↔ c = 'p' ∨ c = 'P' :=
  toLower_eq_iff_of_lower c 'p' 'P'
    (fun n h1 h2 => by interval_cases n <;> decide) (by decide) (by decide)

theorem toLower_eq_d (c : Char) : c.toLower = 'd' ↔ c = 'd' ∨ c = 'D' :=
  toLower_eq_iff_of_lower c 'd' 'D'
    (fun n h1 h2 => by interval_cases n <;> decide) (by decide) (by decide)

theorem toLower_eq_f (c : Char) : c.toLower = 'f' ↔ c = 'f' ∨ c = 'F' :=
  toLower_eq_iff_of_lower c 'f' 'F'
    (fun n h1 h2 => by interval_cases n <;> decide) (by decide) (by decide)

theorem toLower_eq_dot (c : Char) : c.toLower = '.' ↔ c = '.' := by
  by_cases hc : 65 ≤ c.toNat ∧ c.toNat ≤ 90
  · have hne : c ≠ '.' := by
      intro h; rw [h] at hc; revert hc; decide
    have hc2 : c = Char.ofNat c.toNat := (Char.ofNat_toNat c).symm
    obtain ⟨h1, h2⟩ := hc
    constructor
    · intro h
      exfalso
      rw [hc2] at h
      revert h
      generalize c.toNat = n at h1 h2
      interval_cases n <;> decide
    · intro h; exact absurd h hne
  · rw [toLower_of_not_upper c hc]

theorem isPdfName_eq_endsInPdfIgnoringCase (name : String) :
    isPdfName name = endsInPdfIgnoringCase name := by
  have hsuf : ".pdf".data.reverse = ['f', 'd', 'p', '.'] := by decide
  simp only [isPdfName, endsWith, toLowerCase, endsInPdfIgnoringCase, List.isSuffixOf,
    ← List.map_reverse, hsuf]
  rcases name.data.reverse with _ | ⟨c, _ | ⟨b, _ | ⟨a, _ | ⟨d, r⟩⟩⟩⟩
  · rfl
  · simp [List.isPrefixOf]
  · simp [List.isPrefixOf]
  · simp [List.isPrefixOf]
  · simp only [List.map_cons, List.isPrefixOf, Bool.and_true]
    rw [Bool.eq_iff_iff]
    simp only [Bool.and_eq_true, Bool.or_eq_true, beq_iff_eq, @eq_comm _ 'f' c.toLower,
      @eq_comm _ 'd' b.toLower, @eq_comm _ 'p' a.toLower, @eq_comm _ '.' d.toLower,
      toLower_eq_p, toLower_eq_d, toLower_eq_f, toLower_eq_dot]
    tauto


theorem addFileToList_of_accept (s : AppState) (file : File)
    (hpdf : endsInPdfIgnoringCase file.name = true)
    (hnew : ∀ f ∈ s.selectedFiles, f.name ≠ file.name) :
    addFileToList s file =
      (renderFileList { s with selectedFiles := s.selectedFiles ++ [file],
                               uploads := pushToUploads s.uploads file }, []) := by
  have hany : s.selectedFiles.any (fun f => decide (f.name = file.name)) = false := by
    rw [List.any_eq_false]
    intro f hf
    simpa using hnew f hf
  simp only [addFileToList, isPdfName_eq_endsInPdfIgnoringCase, hpdf, hany, Bool.not_true,
    Bool.false_eq_true, if_false]

theorem addFileToList_of_reject (s : AppState) (file : File)
    (h : ¬ (endsInPdfIgnoringCase file.name = true ∧
      ∀ f ∈ s.selectedFiles, f.name ≠ file.name)) :
    (addFileToList s file).1 = s ∧ ∃ msg, (addFileToList s file).2 = [Effect.alert msg] := by
  by_cases hpdf : endsInPdfIgnoringCase file.name = true
  · have hany : s.selectedFiles.any (fun f => decide (f.name = file.name)) = true := by
      rw [List.any_eq_true]
      by_contra hno
      apply h
      refine ⟨hpdf, fun f hf hname => hno ⟨f, hf, by simpa using hname⟩⟩
    simp only [addFileToList, isPdfName_eq_endsInPdfIgnoringCase, hpdf, hany, Bool.not_true,
      Bool.false_eq_true, if_false, if_true]
    exact ⟨trivial, _, rfl⟩
  · have hpdf2 : endsInPdfIgnoringCase file.name = false := by
      simpa using hpdf
    simp only [addFileToList, isPdfName_eq_endsInPdfIgnoringCase, hpdf2, Bool.not_false, if_true]
    exact ⟨trivial, _, rfl⟩

/-- C4. `addFileToList(file)` appends the file at the end of the staging set exactly when its
name ends in `.pdf`, letters compared without regard to case, and no staged file has that name;
in every other case it raises an alert and leaves the state, the staging set included, as it
was. -/
theorem addFileToList_appends_iff (s : AppState) (file : File) :
    ((addFileToList s file).1.selectedFiles = s.selectedFiles ++ [file] ↔
      (endsInPdfIgnoringCase file.name = true ∧
        ∀ f ∈ s.selectedFiles, f.name ≠ file.name)) ∧
    (¬ (endsInPdfIgnoringCase file.name = true ∧
        ∀ f ∈ s.selectedFiles, f.name ≠ file.name) →
      (addFileToList s file).1 = s ∧ ∃ msg, (addFileToList s file).2 = [Effect.alert msg]) := by
  refine ⟨⟨?_, ?_⟩, addFileToList_of_reject s file⟩
  · intro happ
    by_contra hrej
    rw [(addFileToList_of_reject s file hrej).1] at happ
    have hlen := congrArg List.length happ
    simp at hlen
  · rintro ⟨hpdf, hnew⟩
    rw [addFileToList_of_accept s file hpdf hnew]
    rfl

/-- Witness for C4: on an empty staging set `report.PDF` is staged and `report.docx` is
refused; `report.pdf` is staged once and refused the second time. -/
theorem addFileToList_appends_iff_witness :
    (addFileToList (initialState "") { name := "report.PDF", size := 2048, handle := 1 }).1.selectedFiles
      = [{ name := "report.PDF", size := 2048, handle := 1 }] ∧
    (addFileToList (initialState "") { name := "report.docx", size := 2048, handle := 2 }).1
      = initialState "" ∧
    (addFileToList
      (addFileToList (initialState "") { name := "report.pdf", size := 2048, handle := 3 }).1
      { name := "report.pdf", size := 512, handle := 4 }).1
      = (addFileToList (initialState "") { name := "report.pdf", size := 2048, handle := 3 }).1 :=
  ⟨((addFileToList_appends_iff (initialState "")
      { name := "report.PDF", size := 2048, handle := 1 }).1).mpr ⟨by decide, by decide⟩,
   ((addFileToList_appends_iff (initialState "")
      { name := "report.docx", size := 2048, handle := 2 }).2 (by decide)).1,
   ((addFileToList_appends_iff
      (addFileToList (initialState "") { name := "report.pdf", size := 2048, handle := 3 }).1
      { name := "report.pdf", size := 512, handle := 4 }).2 (by decide)).1⟩

theorem renderFileList_selectedFiles (s : AppState) :
    (renderFileList s).selectedFiles = s.selectedFiles := rfl

theorem uploadFilesStart_selectedFiles (s : AppState) :
    (uploadFilesStart s).1.selectedFiles = s.selectedFiles := by
  simp only [uploadFilesStart]
  split <;> rfl

theorem uploadFilesSettle_selectedFiles (s : AppState) (i : Nat) (outcome : UploadOutcome) :
    (uploadFilesSettle s i outcome).1.selectedFiles = s.selectedFiles := by
  simp only [uploadFilesSettle]
  split
  · rfl
  · split
    · rfl
    · split <;> rfl

theorem uploadFilesLoop_selectedFiles (net : File → UploadOutcome) (i fuel : Nat)
    (r : AppState × List Effect) :
    (uploadFilesLoop net i fuel r).1.selectedFiles = r.1.selectedFiles := by
  induction fuel generalizing r with
  | zero => rfl
  | succ fuel ih =>
    rw [uploadFilesLoop]
    split
    · rfl
    · split
      · rfl
      · split
        · rfl
        · rw [ih]
          exact uploadFilesSettle_selectedFiles _ _ _

theorem uploadFiles_selectedFiles (s : AppState) (net : File → UploadOutcome) :
    (uploadFiles s net).1.selectedFiles = s.selectedFiles := by
  rw [uploadFiles, uploadFilesLoop_selectedFiles, uploadFilesStart_selectedFiles]

theorem uploadTimer_selectedFiles (s : AppState) :
    (uploadTimer s).selectedFiles = s.selectedFiles ∨ (uploadTimer s).selectedFiles = [] := by
  simp only [uploadTimer]
  split
  · exact Or.inl rfl
  · split
    · exact Or.inr rfl
    · exact Or.inl rfl

theorem uploadStep_preserves (s : AppState) (e : UploadEvent)
    (h : s.selectedFiles.Pairwise (fun f g => f.name ≠ g.name) ∧
      ∀ f ∈ s.selectedFiles, endsInPdfIgnoringCase f.name = true) :
    (uploadStep s e).selectedFiles.Pairwise (fun f g => f.name ≠ g.name) ∧
      ∀ f ∈ (uploadStep s e).selectedFiles, endsInPdfIgnoringCase f.name = true := by
  have hnil : ([] : List File).Pairwise (fun f g => f.name ≠ g.name) ∧
      ∀ f ∈ ([] : List File), endsInPdfIgnoringCase f.name = true :=
    ⟨List.Pairwise.nil, fun f hf => absurd hf (List.not_mem_nil f)⟩
  cases e with
  | openDialog => exact hnil
  | closeDialog => exact hnil
  | addFile file =>
    by_cases hacc : endsInPdfIgnoringCase file.name = true ∧
        ∀ f ∈ s.selectedFiles, f.name ≠ file.name
    · simp only [uploadStep, addFileToList_of_accept s file hacc.1 hacc.2,
        renderFileList_selectedFiles]
      constructor
      · rw [List.pairwise_append]
        refine ⟨h.1, List.pairwise_singleton _ _, ?_⟩
        intro a ha b hb
        rw [List.mem_singleton] at hb
        rw [hb]
        exact hacc.2 a ha
      · intro f hf
        rcases List.mem_append.mp hf with hf | hf
        · exact h.2 f hf
        · rw [List.mem_singleton] at hf
          rw [hf]
          exact hacc.1
    · simp only [uploadStep, (addFileToList_of_reject s file hacc).1]
      exact h
  | removeFile fileName =>
    simp only [uploadStep, removeFileFromList, renderFileList_selectedFiles]
    exact ⟨h.1.filter _, fun f hf => h.2 f (List.mem_of_mem_filter hf)⟩
  | uploadAll net =>
    simp only [uploadStep, uploadFiles_selectedFiles]
    exact h
  | uploadStart =>
    simp only [uploadStep, uploadFilesStart_selectedFiles]
    exact h
  | uploadSettle upload outcome =>
    simp only [uploadStep, uploadFilesSettle_selectedFiles]
    exact h
  | timer =>
    simp only [uploadStep]
    rcases uploadTimer_selectedFiles s with hk | hk <;> rw [hk]
    · exact h
    · exact hnil

theorem foldl_uploadStep_preserves (events : List UploadEvent) (s : AppState)
    (h : s.selectedFiles.Pairwise (fun f g => f.name ≠ g.name) ∧
      ∀ f ∈ s.selectedFiles, endsInPdfIgnoringCase f.name = true) :
    (events.foldl uploadStep s).selectedFiles.Pairwise (fun f g => f.name ≠ g.name) ∧
      ∀ f ∈ (events.foldl uploadStep s).selectedFiles,
        endsInPdfIgnoringCase f.name = true := by
  induction events generalizing s with
  | nil => exact h
  | cons e rest ih => exact ih _ (uploadStep_preserves s e h)

/-- C5. In every state reached from the freshly loaded page (empty staging set) by any sequence
of opening and closing the dialog, adding and removing files, uploading (as a whole, or started
and settled request by request with other events in between), and the firing of the auto-close
timer, the staged files have pairwise distinct names and each name ends in `.pdf`, letters
compared without regard to case. -/
theorem staging_names_distinct_and_pdf (origin : String) (events : List UploadEvent) :
    (events.foldl uploadStep (initialState origin)).selectedFiles.Pairwise
        (fun f g => f.name ≠ g.name) ∧
    ∀ f ∈ (events.foldl uploadStep (initialState origin)).selectedFiles,
      endsInPdfIgnoringCase f.name = true :=
  foldl_uploadStep_preserves events (initialState origin)
    ⟨List.Pairwise.nil, fun f hf => absurd hf (List.not_mem_nil f)⟩



/-! ## Uploading -/

theorem getElem?_append_cons_length {α : Type} (pre : List α) (cur : α) (post : List α) :
    (pre ++ cur :: post)[pre.length]? = some cur := by
  induction pre with
  | nil => simp
  | cons a pre ih => simpa using ih

theorem set_concat_length {α : Type} (l : List α) (a b : α) :
    (l ++ [a]).set l.length b = l ++ [b] := by
  induction l with
  | nil => rfl
  | cons x l ih => simp

theorem uploadCount_eq (t : UploadTask) (outcome : UploadOutcome) :
    uploadCount t outcome =
      { t with
        successCount := t.successCount + (if outcome.succeeded = true then 1 else 0),
        errorCount := t.errorCount + (if outcome.succeeded = true then 0 else 1) } := by
  cases outcome with
  | networkFailure => simp [uploadCount, UploadOutcome.succeeded]
  | response status =>
    by_cases hok : responseOk status = true
    · simp [uploadCount, UploadOutcome.succeeded, hok]
    · simp [uploadCount, UploadOutcome.succeeded, hok]

theorem uploadFilesSettle_running (sb : AppState) (ups : List UploadTask) (files : List File)
    (live : Bool) (index a b : Nat) (cls txt : String) (outcome : UploadOutcome) :
    uploadFilesSettle { sb with uploads := ups ++ [runningUpload files live index a b cls txt] }
        ups.length outcome =
      match files[index + 1]? with
      | some file =>
        ({ sb with uploads := ups ++ [runningUpload files live (index + 1)
              (a + (if outcome.succeeded = true then 1 else 0))
              (b + (if outcome.succeeded = true then 0 else 1)) cls txt] },
         [Effect.fetchUpload (getApiBase sb ++ "/upload") file])
      | none =>
        ({ sb with
            uploads := ups ++ [{ runningUpload files live (index + 1)
              (a + (if outcome.succeeded = true then 1 else 0))
              (b + (if outcome.succeeded = true then 0 else 1)) cls txt with
                finished := true,
                statusClass := if b + (if outcome.succeeded = true then 0 else 1) = 0
                  then "upload-status success" else "upload-status error",
                statusText := uploadSummary (a + (if outcome.succeeded = true then 1 else 0))
                  (b + (if outcome.succeeded = true then 0 else 1)) }],
            confirmDisabled := false,
            timers := sb.timers ++ [b + (if outcome.succeeded = true then 0 else 1)] },
         [Effect.setTimeout 2000]) := by
  simp only [uploadFilesSettle, List.getElem?_concat_length, uploadCount_eq, runningUpload,
    set_concat_length, Bool.false_eq_true, if_false]
  cases files[index + 1]? <;> rfl

theorem uploadFilesLoop_unfold (net : File → UploadOutcome) (sb : AppState)
    (ups : List UploadTask) (live : Bool) (cls txt : String) (pre : List File) (cur : File)
    (post : List File) (a b fuel : Nat) (E : List Effect) :
    uploadFilesLoop net ups.length (fuel + 1)
      ({ sb with uploads := ups ++ [runningUpload (pre ++ cur :: post) live pre.length a b
          cls txt] }, E) =
      uploadFilesLoop net ups.length fuel
        ((uploadFilesSettle { sb with uploads := ups ++ [runningUpload (pre ++ cur :: post) live
            pre.length a b cls txt] } ups.length (net cur)).1,
         E ++ (uploadFilesSettle { sb with uploads := ups ++ [runningUpload (pre ++ cur :: post)
            live pre.length a b cls txt] } ups.length (net cur)).2) := by
  have hfile : (runningUpload (pre ++ cur :: post) live pre.length a b cls txt).files[
      (runningUpload (pre ++ cur :: post) live pre.length a b cls txt).index]? = some cur :=
    getElem?_append_cons_length pre cur post
  have hrun : (runningUpload (pre ++ cur :: post) live pre.length a b cls txt).finished
      = false := rfl
  rw [uploadFilesLoop]
  simp only [List.getElem?_concat_length, hrun, hfile, Bool.false_eq_true, if_false]

theorem uploadFilesLoop_run (net : File → UploadOutcome) (sb : AppState)
    (ups : List UploadTask) (live : Bool) (cls txt : String) (post : List File) :
    ∀ (pre : List File) (cur : File) (a b : Nat) (E : List Effect),
    uploadFilesLoop net ups.length (post.length + 1)
      ({ sb with uploads := ups ++ [runningUpload (pre ++ cur :: post) live pre.length a b
          cls txt] }, E) =
      ({ sb with
          uploads := ups ++ [finishedUpload (pre ++ cur :: post) live
            (a + (cur :: post).countP (fun f => (net f).succeeded))
            (b + (cur :: post).countP (fun f => !(net f).succeeded))],
          confirmDisabled := false,
          timers := sb.timers ++ [b + (cur :: post).countP (fun f => !(net f).succeeded)] },
       E ++ post.map (Effect.fetchUpload (getApiBase sb ++ "/upload")) ++
         [Effect.setTimeout 2000]) := by
  induction post with
  | nil =>
    intro pre cur a b E
    have hnone : (pre ++ [cur])[pre.length + 1]? = none := by simp
    rw [List.length_nil, Nat.zero_add, uploadFilesLoop_unfold, uploadFilesSettle_running,
      hnone, uploadFilesLoop]
    by_cases hok : (net cur).succeeded = true
    · simp [hok, finishedUpload, runningUpload]
    · simp [hok, finishedUpload, runningUpload]
  | cons next post ih =>
    intro pre cur a b E
    have hsome : (pre ++ cur :: next :: post)[pre.length + 1]? = some next := by
      have h := getElem?_append_cons_length (pre ++ [cur]) next post
      simpa using h
    have hfiles : pre ++ cur :: next :: post = (pre ++ [cur]) ++ next :: post := by simp
    have hidx : pre.length + 1 = (pre ++ [cur]).length := by simp
    rw [List.length_cons, uploadFilesLoop_unfold, uploadFilesSettle_running, hsome]
    simp only []
    rw [hfiles, hidx, ih (pre ++ [cur]) next]
    by_cases hok : (net cur).succeeded = true
    · simp [hok, Nat.add_assoc, Nat.add_comm, Nat.add_left_comm]
    · simp [hok, Nat.add_assoc, Nat.add_comm, Nat.add_left_comm]


theorem uploadFiles_eq (s : AppState) (net : File → UploadOutcome)
    (hne : s.selectedFiles ≠ []) :
    uploadFiles s net =
      ({ s with
          confirmDisabled := false,
          uploadList := s.uploadList ++ [UploadRow.status s.uploads.length],
          uploads := s.uploads ++ [finishedUpload s.selectedFiles true
            (s.selectedFiles.countP (fun f => (net f).succeeded))
            (s.selectedFiles.countP (fun f => !(net f).succeeded))],
          timers := s.timers ++ [s.selectedFiles.countP (fun f => !(net f).succeeded)] },
       s.selectedFiles.map (Effect.fetchUpload (getApiBase s ++ "/upload")) ++
         [Effect.setTimeout 2000]) := by
  obtain ⟨first, rest, hfiles⟩ : ∃ first rest, s.selectedFiles = first :: rest := by
    cases h : s.selectedFiles with
    | nil => exact absurd h hne
    | cons first rest => exact ⟨first, rest, rfl⟩
  have hlen : s.selectedFiles.length = rest.length + 1 := by rw [hfiles]; rfl
  have hstart : uploadFilesStart s =
      ({ ({ s with confirmDisabled := true,
                   uploadList := s.uploadList ++ [UploadRow.status s.uploads.length] }
            : AppState) with
          uploads := s.uploads ++ [runningUpload s.selectedFiles true 0 0 0
            "upload-status uploading"
            ("Uploading " ++ toString s.selectedFiles.length ++ " file(s)...")] },
       [Effect.fetchUpload (getApiBase s ++ "/upload") first]) := by
    unfold uploadFilesStart
    split
    · rename_i h
      rw [hfiles] at h
      exact absurd h (List.cons_ne_nil _ _)
    · rename_i f r h
      rw [hfiles] at h
      injection h with h1 h2
      rw [h1]
      rfl
  have htask : runningUpload s.selectedFiles true 0 0 0 "upload-status uploading"
      ("Uploading " ++ toString s.selectedFiles.length ++ " file(s)...") =
      runningUpload ([] ++ first :: rest) true ([] : List File).length 0 0
        "upload-status uploading"
        ("Uploading " ++ toString s.selectedFiles.length ++ " file(s)...") := by
    rw [hfiles]
    rfl
  rw [uploadFiles, hlen, hstart, htask, uploadFilesLoop_run, hfiles]
  simp only [List.nil_append, Nat.zero_add, List.map_cons, List.cons_append, Prod.mk.injEq]
  exact ⟨trivial, rfl⟩

theorem countP_not_eq_length_sub (net : File → UploadOutcome) (files : List File) :
    files.countP (fun f => !(net f).succeeded) =
      files.length - files.countP (fun f => (net f).succeeded) := by
  have h := List.length_eq_countP_add_countP (fun f => (net f).succeeded) files
  have heq : files.countP (fun f => !(net f).succeeded) =
      files.countP (fun a => decide ¬(net a).succeeded = true) := by
    congr 1
    funext f
    cases (net f).succeeded <;> rfl
  omega

theorem countP_not_eq_zero_iff (net : File → UploadOutcome) (files : List File) :
    files.countP (fun f => !(net f).succeeded) = 0 ↔
      ∀ f ∈ files, (net f).succeeded = true := by
  rw [List.countP_eq_zero]
  constructor
  · intro h f hf
    have := h f hf
    cases hs : (net f).succeeded
    · simp [hs] at this
    · rfl
  · intro h f hf
    simp [h f hf]


/-- C6, as the code has it. On a non-empty staging list of n files, when no other handler runs
while the upload is in progress, `uploadFiles` issues one request per staged file, in list order,
whatever the outcomes of the earlier ones, and then arms its timer; it ends with `successCount`
equal to the number of files answered with a 2xx status and `errorCount` equal to n minus that;
its status line then reads a check mark, the success count and `uploaded`, followed, only when
there is a failure, by a comma, a cross, the failure count and `failed`. -/
theorem uploadFiles_tallies_every_file (s : AppState) (net : File → UploadOutcome)
    (hne : s.selectedFiles ≠ []) :
    (uploadFiles s net).2 =
      s.selectedFiles.map (Effect.fetchUpload (getApiBase s ++ "/upload")) ++
        [Effect.setTimeout 2000] ∧
    (uploadFiles s net).1.uploadList = s.uploadList ++ [UploadRow.status s.uploads.length] ∧
    (uploadFiles s net).1.uploads = s.uploads ++
      [{ files := s.selectedFiles,
         live := true,
         index := s.selectedFiles.length,
         successCount := s.selectedFiles.countP (fun f => (net f).succeeded),
         errorCount :=
           s.selectedFiles.length - s.selectedFiles.countP (fun f => (net f).succeeded),
         statusClass :=
           if s.selectedFiles.length - s.selectedFiles.countP (fun f => (net f).succeeded) = 0
           then "upload-status success" else "upload-status error",
         statusText :=
           "✓ " ++ toString (s.selectedFiles.countP (fun f => (net f).succeeded)) ++ " uploaded" ++
             (if s.selectedFiles.length - s.selectedFiles.countP (fun f => (net f).succeeded) > 0
              then ", ✕ " ++
                toString (s.selectedFiles.length -
                  s.selectedFiles.countP (fun f => (net f).succeeded)) ++ " failed"
              else ""),
         finished := true }] := by
  rw [uploadFiles_eq s net hne]
  refine ⟨rfl, rfl, ?_⟩
  simp only [finishedUpload, uploadSummary, countP_not_eq_length_sub]

/-- Witness for C6 as amended: three staged files, the first answered 200, the second failing at
the network, the third answered 201. All three are requested in order, and the status line reads
two uploaded, one failed, with the check mark and the cross. -/
theorem uploadFiles_tallies_every_file_witness :
    ({ initialState "http://localhost" with
        selectedFiles := [{ name := "a.pdf", size := 1, handle := 1 },
          { name := "b.pdf", size := 2, handle := 2 },
          { name := "c.pdf", size := 3, handle := 3 }] } : AppState).selectedFiles ≠ [] ∧
    (uploadFiles { initialState "http://localhost" with
        selectedFiles := [{ name := "a.pdf", size := 1, handle := 1 },
          { name := "b.pdf", size := 2, handle := 2 },
          { name := "c.pdf", size := 3, handle := 3 }] }
      (fun f => if f.name = "a.pdf" then UploadOutcome.response 200
        else if f.name = "b.pdf" then UploadOutcome.networkFailure
        else UploadOutcome.response 201)).2 =
      [Effect.fetchUpload "http://localhost/upload" { name := "a.pdf", size := 1, handle := 1 },
        Effect.fetchUpload "http://localhost/upload" { name := "b.pdf", size := 2, handle := 2 },
        Effect.fetchUpload "http://localhost/upload" { name := "c.pdf", size := 3, handle := 3 },
        Effect.setTimeout 2000] ∧
    (uploadFiles { initialState "http://localhost" with
        selectedFiles := [{ name := "a.pdf", size := 1, handle := 1 },
          { name := "b.pdf", size := 2, handle := 2 },
          { name := "c.pdf", size := 3, handle := 3 }] }
      (fun f => if f.name = "a.pdf" then UploadOutcome.response 200
        else if f.name = "b.pdf" then UploadOutcome.networkFailure
        else UploadOutcome.response 201)).1.uploads.map (fun t => t.statusText) =
      ["✓ 2 uploaded, ✕ 1 failed"] := by
  have h := uploadFiles_tallies_every_file
    { initialState "http://localhost" with
        selectedFiles := [{ name := "a.pdf", size := 1, handle := 1 },
          { name := "b.pdf", size := 2, handle := 2 },
          { name := "c.pdf", size := 3, handle := 3 }] }
    (fun f => if f.name = "a.pdf" then UploadOutcome.response 200
        else if f.name = "b.pdf" then UploadOutcome.networkFailure
        else UploadOutcome.response 201) (by decide)
  refine ⟨by decide, h.1.trans (by decide), ?_⟩
  rw [h.2.2]
  decide

/-- C6, counterexample. With three staged files of which two succeed and one fails, the status
line of the upload reads `✓ 2 uploaded, ✕ 1 failed`; the text `2 uploaded, 1 failed` does not
occur in it. And with one file staged, a second file added while the request for the first is
awaited is requested and counted as well: the upload that started on a list of one file ends
with two successes. -/
theorem uploadFiles_summary_glyphs_and_late_file :
    ((uploadFiles { initialState "http://localhost" with
        selectedFiles := [{ name := "a.pdf", size := 1, handle := 1 },
          { name := "b.pdf", size := 2, handle := 2 },
          { name := "c.pdf", size := 3, handle := 3 }] }
      (fun f => if f.name = "b.pdf" then UploadOutcome.response 500
        else UploadOutcome.response 200)).1.uploads.map (fun t => t.statusText) =
      ["✓ 2 uploaded, ✕ 1 failed"] ∧
     ¬ ("2 uploaded, 1 failed".data <:+: "✓ 2 uploaded, ✕ 1 failed".data)) ∧
    ((addFileToList (initialState "http://localhost")
        { name := "a.pdf", size := 1, handle := 1 }).1.selectedFiles.length = 1 ∧
     (uploadFilesSettle
        (addFileToList
          (uploadFilesStart (addFileToList (initialState "http://localhost")
            { name := "a.pdf", size := 1, handle := 1 }).1).1
          { name := "b.pdf", size := 2, handle := 2 }).1
        0 (UploadOutcome.response 200)).2 =
      [Effect.fetchUpload "http://localhost/upload" { name := "b.pdf", size := 2, handle := 2 }] ∧
     (uploadFilesSettle
        (uploadFilesSettle
          (addFileToList
            (uploadFilesStart (addFileToList (initialState "http://localhost")
              { name := "a.pdf", size := 1, handle := 1 }).1).1
            { name := "b.pdf", size := 2, handle := 2 }).1
          0 (UploadOutcome.response 200)).1
        0 (UploadOutcome.response 200)).1.uploads.map
          (fun t => (t.finished, t.successCount, t.errorCount, t.statusText)) =
      [(true, 2, 0, "✓ 2 uploaded")]) := by
  refine ⟨⟨by decide, by decide⟩, by decide, by decide, by decide⟩

/-- C7, as the code has it. After `uploadFiles` has gone through a non-empty staging list, with
no other handler running meanwhile and no timer of an earlier upload pending, the confirm button
is enabled again and a timer of 2000 ms is armed. When the timer fires and no upload failed, the
dialog is closed, the staging set discarded and the confirm button disabled; when at least one
upload failed, the timer changes nothing: the dialog stays as it was, the staging set is the one
before the upload and the confirm button stays enabled. So an open dialog is closed by the timer
exactly when no upload failed. -/
theorem uploadFiles_closes_iff_no_failure (s : AppState) (net : File → UploadOutcome)
    (hne : s.selectedFiles ≠ []) (htimers : s.timers = []) :
    ((uploadFiles s net).1.confirmDisabled = false ∧
      (uploadFiles s net).1.selectedFiles = s.selectedFiles ∧
      (uploadFiles s net).1.modalActive = s.modalActive ∧
      Effect.setTimeout 2000 ∈ (uploadFiles s net).2) ∧
    ((∀ f ∈ s.selectedFiles, (net f).succeeded = true) →
      (uploadTimer (uploadFiles s net).1).modalActive = false ∧
      (uploadTimer (uploadFiles s net).1).selectedFiles = [] ∧
      (uploadTimer (uploadFiles s net).1).confirmDisabled = true) ∧
    (¬ (∀ f ∈ s.selectedFiles, (net f).succeeded = true) →
      (uploadTimer (uploadFiles s net).1).modalActive = s.modalActive ∧
      (uploadTimer (uploadFiles s net).1).selectedFiles = s.selectedFiles ∧
      (uploadTimer (uploadFiles s net).1).confirmDisabled = false) ∧
    (s.modalActive = true →
      ((uploadTimer (uploadFiles s net).1).modalActive = false ↔
        ∀ f ∈ s.selectedFiles, (net f).succeeded = true)) := by
  have hup := uploadFiles_eq s net hne
  have hzero := countP_not_eq_zero_iff net s.selectedFiles
  have hall : (∀ f ∈ s.selectedFiles, (net f).succeeded = true) →
      (uploadTimer (uploadFiles s net).1).modalActive = false ∧
      (uploadTimer (uploadFiles s net).1).selectedFiles = [] ∧
      (uploadTimer (uploadFiles s net).1).confirmDisabled = true := by
    intro h
    rw [hup]
    simp only [uploadTimer, htimers, List.nil_append, hzero.mpr h, if_true]
    exact ⟨rfl, rfl, rfl⟩
  have hsome : ¬ (∀ f ∈ s.selectedFiles, (net f).succeeded = true) →
      (uploadTimer (uploadFiles s net).1).modalActive = s.modalActive ∧
      (uploadTimer (uploadFiles s net).1).selectedFiles = s.selectedFiles ∧
      (uploadTimer (uploadFiles s net).1).confirmDisabled = false := by
    intro h
    have hnz : ¬ s.selectedFiles.countP (fun f => !(net f).succeeded) = 0 :=
      fun h0 => h (hzero.mp h0)
    rw [hup]
    simp only [uploadTimer, htimers, List.nil_append, hnz, if_false]
    exact ⟨trivial, trivial, trivial⟩
  refine ⟨⟨?_, ?_, ?_, ?_⟩, hall, hsome, ?_⟩
  · rw [hup]
  · rw [hup]
  · rw [hup]
  · rw [hup]
    exact List.mem_append_right _ (List.mem_singleton.mpr rfl)
  · intro hactive
    constructor
    · intro hclosed
      by_contra hfail
      rw [(hsome hfail).1, hactive] at hclosed
      exact Bool.noConfusion hclosed
    · intro h
      exact (hall h).1

/-- Witness for C7 as amended: with the dialog open on two staged files and no timer pending,
both answered 200, the timer closes the dialog; with the second answered 500 it does not. -/
theorem uploadFiles_closes_iff_no_failure_witness :
    (uploadTimer (uploadFiles { initialState "http://localhost" with
        modalActive := true,
        selectedFiles := [{ name := "a.pdf", size := 1, handle := 1 },
          { name := "b.pdf", size := 2, handle := 2 }] }
      (fun _ => UploadOutcome.response 200)).1).modalActive = false ∧
    (uploadTimer (uploadFiles { initialState "http://localhost" with
        modalActive := true,
        selectedFiles := [{ name := "a.pdf", size := 1, handle := 1 },
          { name := "b.pdf", size := 2, handle := 2 }] }
      (fun f => if f.name = "b.pdf" then UploadOutcome.response 500
        else UploadOutcome.response 200)).1).selectedFiles =
      [{ name := "a.pdf", size := 1, handle := 1 }, { name := "b.pdf", size := 2, handle := 2 }] :=
  ⟨((uploadFiles_closes_iff_no_failure { initialState "http://localhost" with
        modalActive := true,
        selectedFiles := [{ name := "a.pdf", size := 1, handle := 1 },
          { name := "b.pdf", size := 2, handle := 2 }] }
      (fun _ => UploadOutcome.response 200) (by decide) rfl).2.1 (by decide)).1,
   ((uploadFiles_closes_iff_no_failure { initialState "http://localhost" with
        modalActive := true,
        selectedFiles := [{ name := "a.pdf", size := 1, handle := 1 },
          { name := "b.pdf", size := 2, handle := 2 }] }
      (fun f => if f.name = "b.pdf" then UploadOutcome.response 500
        else UploadOutcome.response 200) (by decide) rfl).2.2.1 (by decide)).2.1⟩

/-- C7, counterexample. From the freshly loaded page: the dialog is opened, `a.pdf` and `b.pdf`
are staged and uploaded with every request answered 200; the dialog is still open, both files
are still staged and the timer of that upload is pending. A second upload follows in which
`b.pdf` is answered 500, so one file failed. When the oldest timer then fires, the dialog is
closed, the staging set emptied and the confirm button disabled, although the upload that just
finished had a failure. -/
theorem uploadFiles_earlier_timer_closes_after_failure :
    (([UploadEvent.openDialog,
        UploadEvent.addFile { name := "a.pdf", size := 1, handle := 1 },
        UploadEvent.addFile { name := "b.pdf", size := 2, handle := 2 },
        UploadEvent.uploadAll (fun _ => UploadOutcome.response 200)].foldl uploadStep
        (initialState "http://localhost")).modalActive = true ∧
     ([UploadEvent.openDialog,
        UploadEvent.addFile { name := "a.pdf", size := 1, handle := 1 },
        UploadEvent.addFile { name := "b.pdf", size := 2, handle := 2 },
        UploadEvent.uploadAll (fun _ => UploadOutcome.response 200)].foldl uploadStep
        (initialState "http://localhost")).selectedFiles =
      [{ name := "a.pdf", size := 1, handle := 1 }, { name := "b.pdf", size := 2, handle := 2 }] ∧
     ([UploadEvent.openDialog,
        UploadEvent.addFile { name := "a.pdf", size := 1, handle := 1 },
        UploadEvent.addFile { name := "b.pdf", size := 2, handle := 2 },
        UploadEvent.uploadAll (fun _ => UploadOutcome.response 200)].foldl uploadStep
        (initialState "http://localhost")).timers = [0]) ∧
    ([UploadEvent.openDialog,
        UploadEvent.addFile { name := "a.pdf", size := 1, handle := 1 },
        UploadEvent.addFile { name := "b.pdf", size := 2, handle := 2 },
        UploadEvent.uploadAll (fun _ => UploadOutcome.response 200),
        UploadEvent.uploadAll (fun f => if f.name = "b.pdf" then UploadOutcome.response 500
          else UploadOutcome.response 200)].foldl uploadStep
        (initialState "http://localhost")).uploads.map
          (fun t => (t.finished, t.successCount, t.errorCount)) =
      [(true, 2, 0), (true, 1, 1)] ∧
    (([UploadEvent.openDialog,
        UploadEvent.addFile { name := "a.pdf", size := 1, handle := 1 },
        UploadEvent.addFile { name := "b.pdf", size := 2, handle := 2 },
        UploadEvent.uploadAll (fun _ => UploadOutcome.response 200),
        UploadEvent.uploadAll (fun f => if f.name = "b.pdf" then UploadOutcome.response 500
          else UploadOutcome.response 200),
        UploadEvent.timer].foldl uploadStep (initialState "http://localhost")).modalActive =
        false ∧
     ([UploadEvent.openDialog,
        UploadEvent.addFile { name := "a.pdf", size := 1, handle := 1 },
        UploadEvent.addFile { name := "b.pdf", size := 2, handle := 2 },
        UploadEvent.uploadAll (fun _ => UploadOutcome.response 200),
        UploadEvent.uploadAll (fun f => if f.name = "b.pdf" then UploadOutcome.response 500
          else UploadOutcome.response 200),
        UploadEvent.timer].foldl uploadStep (initialState "http://localhost")).selectedFiles =
        [] ∧
     ([UploadEvent.openDialog,
        UploadEvent.addFile { name := "a.pdf", size := 1, handle := 1 },
        UploadEvent.addFile { name := "b.pdf", size := 2, handle := 2 },
        UploadEvent.uploadAll (fun _ => UploadOutcome.response 200),
        UploadEvent.uploadAll (fun f => if f.name = "b.pdf" then UploadOutcome.response 500
          else UploadOutcome.response 200),
        UploadEvent.timer].foldl uploadStep (initialState "http://localhost")).confirmDisabled =
        true) := by
  refine ⟨⟨by decide, by decide, by decide⟩, by decide, by decide, by decide, by decide⟩

/-! ## Exporting and clearing the transcript -/

theorem join_cons_append (a b : String) (rest : List String) (sep : String) :
    join ((a ++ b) :: rest) sep = a ++ join (b :: rest) sep := by
  cases rest with
  | nil => rfl
  | cons c rest => simp only [join, String.append_assoc]

theorem intercalate_go_eq_join (sep : String) (rest : List String) (acc : String) :
    String.intercalate.go acc sep rest = join (acc :: rest) sep := by
  induction rest generalizing acc with
  | nil => rfl
  | cons x rest ih =>
    rw [String.intercalate.go, ih, String.append_assoc, join_cons_append, join_cons_append,
      ← String.append_assoc]
    rfl

theorem join_eq_intercalate (parts : List String) (sep : String) :
    join parts sep = String.intercalate sep parts := by
  cases parts with
  | nil => rfl
  | cons x rest => exact (intercalate_go_eq_join sep rest x).symm

theorem exportMessage_eq_transcriptEntry (m : Message) :
    exportMessage m = transcriptEntry m := by
  cases m with
  | mk role time text => cases role <;> rfl

theorem exportText_eq_transcriptExport (s : AppState) (exportedAt : String) :
    exportText s exportedAt = transcriptExport exportedAt s.totalQuestions s.chat := by
  have hrule : exportRule = "==================================================" := by decide
  have hmap : s.chat.map exportMessage = s.chat.map transcriptEntry :=
    List.map_congr_left fun m _ => exportMessage_eq_transcriptEntry m
  simp only [exportText, transcriptExport, join_eq_intercalate, hrule, hmap, String.append_assoc]
  rfl


/-- C8. On an empty transcript `exportChat` only raises the alert `No messages to export`: no
download is offered. On a non-empty transcript it offers exactly one download, whose text is the
metadata header (export time, total question count) followed by all messages in display order,
each written as `[time] Role:`, a line break and its text, consecutive messages separated by the
rule of fifty `=`. -/
theorem exportChat_writes_transcript (s : AppState) (exportedAt : String) (nowMillis : Nat) :
    (s.chat = [] → exportChat s exportedAt nowMillis = [Effect.alert "No messages to export"]) ∧
    (s.chat ≠ [] → exportChat s exportedAt nowMillis =
      [Effect.download ("documind-export-" ++ toString nowMillis ++ ".txt")
        (transcriptExport exportedAt s.totalQuestions s.chat)]) := by
  constructor
  · intro h
    simp only [exportChat, h, List.length_nil, if_true]
  · intro h
    have hlen : ¬ s.chat.length = 0 := fun h0 => h (List.length_eq_zero.mp h0)
    simp only [exportChat, hlen, if_false, exportText_eq_transcriptExport]

set_option maxRecDepth 100000 in
/-- Witness for C8: nothing is downloaded from the freshly loaded page; a transcript of one user
message and one bot message is exported with the user message first, each under its time and
role label. -/
theorem exportChat_writes_transcript_witness :
    exportChat (initialState "http://localhost") "1/2/2026, 10:02:00 AM" 1767348120000 =
      [Effect.alert "No messages to export"] ∧
    exportChat { initialState "http://localhost" with
        chat := [{ role := Role.user, time := "10:00 AM", text := "What is X?" },
          { role := Role.bot, time := "10:01 AM", text := "X is Y." }],
        chatEmpty := false, totalQuestions := 1 }
      "1/2/2026, 10:02:00 AM" 1767348120000 =
      [Effect.download "documind-export-1767348120000.txt"
        ("DocuMind Enterprise - Conversation Export\nExported: 1/2/2026, 10:02:00 AM\n" ++
         "Total Questions: 1\n\n==================================================\n\n" ++
         "[10:00 AM] User:\nWhat is X?\n\n==================================================\n\n" ++
         "[10:01 AM] DocuMind:\nX is Y.")] :=
  ⟨(exportChat_writes_transcript (initialState "http://localhost") "1/2/2026, 10:02:00 AM"
      1767348120000).1 rfl,
   ((exportChat_writes_transcript { initialState "http://localhost" with
        chat := [{ role := Role.user, time := "10:00 AM", text := "What is X?" },
          { role := Role.bot, time := "10:01 AM", text := "X is Y." }],
        chatEmpty := false, totalQuestions := 1 }
      "1/2/2026, 10:02:00 AM" 1767348120000).2 (by decide)).trans (by decide)⟩

/-- C9. When the transcript holds messages and the confirmation is declined, `clearChat` changes
nothing. When the confirmation is given, or when the transcript is empty (then nothing is asked),
it leaves the chat with no message and the empty-state placeholder, the question counter at 0
with `0` shown, the latency window empty and the latency metric at its placeholder. -/
theorem clearChat_resets_when_confirmed (s : AppState) (confirmed : Bool) :
    (s.chat ≠ [] → confirmed = false →
      (clearChat s confirmed).1 = s ∧
      (clearChat s confirmed).2 = [Effect.confirm "Clear all messages?"]) ∧
    ((confirmed = true ∨ s.chat = []) →
      (clearChat s confirmed).1.chat = [] ∧
      (clearChat s confirmed).1.chatEmpty = true ∧
      (clearChat s confirmed).1.totalQuestions = 0 ∧
      (clearChat s confirmed).1.metricTotal = "0" ∧
      (clearChat s confirmed).1.lastLatencies = [] ∧
      (clearChat s confirmed).1.metricLatency = "—") ∧
    (s.chat = [] → (clearChat s confirmed).2 = []) := by
  refine ⟨?_, ?_, ?_⟩
  · intro hne hno
    have hemp : s.chat.isEmpty = false := by
      cases hc : s.chat with
      | nil => exact absurd hc hne
      | cons m rest => rfl
    simp [clearChat, hemp, hno]
  · intro h
    have hcond : (!s.chat.isEmpty && !confirmed) = false := by
      rcases h with h | h
      · simp [h]
      · simp [h]
    simp [clearChat, hcond]
  · intro h
    simp [clearChat, h]

/-- Witness for C9: a transcript of one question, with a recorded latency, is kept when the
confirmation is declined and reset when it is given. -/
theorem clearChat_resets_when_confirmed_witness :
    (clearChat { initialState "http://localhost" with
        chat := [{ role := Role.user, time := "10:00 AM", text := "What is X?" }],
        chatEmpty := false, totalQuestions := 1, lastLatencies := [42],
        metricTotal := "1", metricLatency := "42ms" } false).1 =
      { initialState "http://localhost" with
        chat := [{ role := Role.user, time := "10:00 AM", text := "What is X?" }],
        chatEmpty := false, totalQuestions := 1, lastLatencies := [42],
        metricTotal := "1", metricLatency := "42ms" } ∧
    (clearChat { initialState "http://localhost" with
        chat := [{ role := Role.user, time := "10:00 AM", text := "What is X?" }],
        chatEmpty := false, totalQuestions := 1, lastLatencies := [42],
        metricTotal := "1", metricLatency := "42ms" } true).1.totalQuestions = 0 ∧
    (clearChat { initialState "http://localhost" with
        chat := [{ role := Role.user, time := "10:00 AM", text := "What is X?" }],
        chatEmpty := false, totalQuestions := 1, lastLatencies := [42],
        metricTotal := "1", metricLatency := "42ms" } true).1.metricLatency = "—" :=
  ⟨((clearChat_resets_when_confirmed _ false).1 (by decide) rfl).1,
   ((clearChat_resets_when_confirmed _ true).2.1 (Or.inl rfl)).2.2.1,
   ((clearChat_resets_when_confirmed _ true).2.1 (Or.inl rfl)).2.2.2.2.2⟩

/-! ## The question counter -/

theorem sendQuestionSettle_appends_bot (s : AppState) (outcome : QueryOutcome) (elapsed : ℚ)
    (time : String) :
    (sendQuestionSettle s outcome elapsed time).1.totalQuestions = s.totalQuestions ∧
    ∃ text, (sendQuestionSettle s outcome elapsed time).1.chat =
      s.chat ++ [{ role := Role.bot, time := time, text := text }] := by
  cases outcome with
  | networkFailure message => exact ⟨rfl, _, rfl⟩
  | response status text answer =>
    simp only [sendQuestionSettle]
    split
    · split
      · exact ⟨rfl, _, rfl⟩
      · exact ⟨rfl, _, rfl⟩
    · split
      · exact ⟨rfl, _, rfl⟩
      · exact ⟨rfl, _, rfl⟩

theorem chatStep_preserves_count (s : AppState) (e : ChatEvent)
    (h : s.totalQuestions = s.chat.countP (fun m => decide (m.role = Role.user))) :
    (chatStep s e).totalQuestions =
      (chatStep s e).chat.countP (fun m => decide (m.role = Role.user)) := by
  cases e with
  | send question time =>
    simp only [chatStep]
    cases hg : sendGuard s question with
    | true => rw [sendQuestionStart_of_guard s question time hg]; exact h
    | false =>
      have hp := sendQuestionStart_of_pass s question time hg
      rw [hp.2.1, hp.2.2.2.1, List.countP_append, h]
      rfl
  | settle outcome elapsed time =>
    simp only [chatStep]
    split
    · obtain ⟨ht, text, hc⟩ := sendQuestionSettle_appends_bot s outcome elapsed time
      rw [ht, hc, List.countP_append, h]
      rfl
    · exact h
  | clear confirmed =>
    simp only [chatStep, clearChat]
    split
    · exact h
    · rfl

theorem foldl_chatStep_preserves_count (events : List ChatEvent) (s : AppState)
    (h : s.totalQuestions = s.chat.countP (fun m => decide (m.role = Role.user))) :
    (events.foldl chatStep s).totalQuestions =
      (events.foldl chatStep s).chat.countP (fun m => decide (m.role = Role.user)) := by
  induction events generalizing s with
  | nil => exact h
  | cons e rest ih => exact ih _ (chatStep_preserves_count s e h)

/-- C10. In every state reached from the freshly loaded page (empty transcript, counter 0) by any
sequence of sends, settlings of the pending request (with any outcome) and clears (confirmed or
declined), `totalQuestions` equals the number of user messages in the transcript; so the text
`exportChat` writes carries, as its total question count, the number of user messages it
exports. -/
theorem totalQuestions_counts_user_messages (origin : String) (events : List ChatEvent) :
    (events.foldl chatStep (initialState origin)).totalQuestions =
      (events.foldl chatStep (initialState origin)).chat.countP
        (fun m => decide (m.role = Role.user)) ∧
    ∀ exportedAt : String,
      exportText (events.foldl chatStep (initialState origin)) exportedAt =
        transcriptExport exportedAt
          ((events.foldl chatStep (initialState origin)).chat.countP
            (fun m => decide (m.role = Role.user)))
          (events.foldl chatStep (initialState origin)).chat := by
  have h := foldl_chatStep_preserves_count events (initialState origin) rfl
  refine ⟨h, fun exportedAt => ?_⟩
  rw [exportText_eq_transcriptExport, h]

end DocuMind
